import Mathlib

/-!
# NFS-Ganesha: delegation return and FSAL/ZFS start-up negotiation

Shallow embedding of

* `src/Protocols/NFS/nfs4_op_delegreturn.c` : `nfs4_op_delegreturn`
* `src/FSAL/FSAL_ZFS/fsal_internal.c`       : `fsal_internal_init_global`
  and the three merge macros `SET_INTEGER_PARAM`, `SET_BITMAP_PARAM`,
  `SET_BOOLEAN_PARAM`.

C globals and the objects reached through pointers are fields of an explicit
state record; a C function that writes them is a function from state to state.
-/

namespace Ganesha

/-! ## Part 1 : types used by `nfs4_op_delegreturn` -/

/-- The NFSv4 status codes (enum `nfsstat4` of nfs4.h) that the handler or its
collaborators can put in a reply. -/
inductive nfsstat4 where
  | NFS4_OK
  | NFS4ERR_INVAL
  | NFS4ERR_BADHANDLE
  | NFS4ERR_NOFILEHANDLE
  | NFS4ERR_FHEXPIRED
  | NFS4ERR_STALE
  | NFS4ERR_EXPIRED
  | NFS4ERR_DENIED
  | NFS4ERR_LOCKS_HELD
  | NFS4ERR_RESOURCE
  | NFS4ERR_SERVERFAULT
  | NFS4ERR_STALE_STATEID
  | NFS4ERR_OLD_STATEID
  | NFS4ERR_BAD_STATEID
  deriving DecidableEq, Repr

/-- Status of a SAL call (enum `state_status_t`); `STATE_SUCCESS` is the only
value the handler tests for. -/
inductive state_status_t where
  | STATE_SUCCESS
  | STATE_MALLOC_ERROR
  | STATE_LOCK_CONFLICT
  | STATE_FSAL_ERROR
  | STATE_NOT_FOUND
  | STATE_SERVERFAULT
  deriving DecidableEq, Repr

/-- Kind of a state object (enum `state_type_t`). -/
inductive state_type_t where
  | STATE_TYPE_NONE
  | STATE_TYPE_SHARE
  | STATE_TYPE_DELEG
  | STATE_TYPE_LOCK
  | STATE_TYPE_LAYOUT
  deriving DecidableEq, Repr

/-- Type of the object a filehandle designates (enum `object_file_type_t`). -/
inductive object_file_type_t where
  | NO_FILE_TYPE
  | REGULAR_FILE
  | CHARACTER_FILE
  | BLOCK_FILE
  | SYMBOLIC_LINK
  | SOCKET_FILE
  | FIFO_FILE
  | DIRECTORY
  deriving DecidableEq, Repr

/-- Wire stateid: a 4-byte sequence number and 12 opaque bytes, the latter read
as one natural number. -/
structure stateid4 where
  seqid : Nat
  other : Nat
  deriving DecidableEq, Repr

/-- A state object of the registry (`state_t`): the opaque part of its stateid,
its current sequence number, its kind and the owner it belongs to. -/
structure state_t where
  stateid_other : Nat
  state_seqid : Nat
  state_type : state_type_t
  state_owner : Nat
  deriving DecidableEq, Repr

/-- One entry of a file's delegation list (`struct deleg_data`). `dd_state` is
the state the entry points to, `dd_owner` the address of the lock owner used to
release the lease lock; the remaining fields are the recall bookkeeping. -/
structure deleg_data where
  dd_state : state_t
  dd_owner : Nat
  dd_outstanding : Bool
  dd_recall_pending : Bool
  dd_last_recall : Nat
  deriving DecidableEq, Repr

/-- Result slot of the operation (`nfs_resop4` restricted to DELEGRETURN):
the operation tag and the status of `DELEGRETURN4res`. -/
structure nfs_resop4 where
  resop : Nat
  status : nfsstat4
  deriving DecidableEq, Repr

/-- Operation number of DELEGRETURN (RFC 5661). -/
def NFS4_OP_DELEGRETURN : Nat := 8

/-- Arguments of the operation (`DELEGRETURN4args`). -/
structure DELEGRETURN4args where
  deleg_stateid : stateid4
  deriving DecidableEq, Repr

/-- A lock owner (`state_owner_t`), with the record of the last request that
was saved in it. -/
structure state_owner_t where
  so_id : Nat
  so_seqid : Nat
  so_args : Option DELEGRETURN4args
  so_resp : Option nfs_resop4
  deriving DecidableEq, Repr

/-- Lock type of a lock descriptor. -/
inductive fsal_lock_t where
  | FSAL_LOCK_R
  | FSAL_LOCK_W
  | FSAL_NO_LOCK
  deriving DecidableEq, Repr

/-- Class of a lock descriptor. -/
inductive fsal_sle_type_t where
  | FSAL_POSIX_LOCK
  | FSAL_LEASE_LOCK
  deriving DecidableEq, Repr

/-- Lock descriptor handed to the SAL (`fsal_lock_param_t`). -/
structure fsal_lock_param_t where
  lock_sle_type : fsal_sle_type_t
  lock_type : fsal_lock_t
  lock_start : Nat
  lock_length : Nat
  deriving DecidableEq, Repr

/-- A filehandle as the handler sees it: length and bytes. -/
structure nfs_fh4 where
  nfs_fh4_len : Nat
  nfs_fh4_val : List Nat
  deriving DecidableEq, Repr

/-- The part of a cache entry the handler touches: the `state_lock` guard
(`true` while write-held) and `object.file.deleg_list`. -/
structure cache_entry_t where
  state_lock : Bool
  deleg_list : List deleg_data
  deriving DecidableEq, Repr

/-- Compound request data (`compound_data_t`): current filehandle, the entry
it resolves to and that entry's type. -/
structure compound_data_t where
  currentFH : nfs_fh4
  current_entry : cache_entry_t
  current_filetype : object_file_type_t
  deriving DecidableEq, Repr

/-- What the handler and its collaborators do to shared objects, in order. -/
inductive sal_event where
  | wrlock_state_lock
  | unlock_state_lock
  | call_deleg_heuristics_recall (deleg_other : Nat)
  | call_release_lease_lock (owner : Nat) (state_other : Nat) (desc : fsal_lock_param_t)
  | call_Copy_nfs4_state_req (owner : Nat) (seqid : Nat) (saved : nfsstat4)
  | call_state_del_locked (state_other : Nat)
  deriving DecidableEq, Repr

/-- Everything the handler can read or write: the compound data with the
current entry, the state registry (the stateid hash table), the lock owners,
and the log of guard operations and collaborator calls made so far. -/
structure sal_state where
  data : compound_data_t
  registry : List state_t
  owners : List state_owner_t
  trace : List sal_event
  deriving DecidableEq, Repr

/-- Collaborators of the handler whose bodies are outside the embedded files
and whose result is all the handler uses: the filehandle check, the lease-lock
release and the status mapping. They are parameters of the handler. -/
structure sal_externs where
  nfs4_Is_Fh_Invalid : nfs_fh4 → nfsstat4
  release_lease_lock : cache_entry_t → Nat → state_t → fsal_lock_param_t → state_status_t
  nfs4_Errno_state : state_status_t → nfsstat4

/-! ## Part 1 : collaborators of the handler -/

/-- Modelled from the spec: the macro `SAME_STATEID` is not in src. The scan
looks for "a DelegationRecord whose stateid matches the validated stateid";
the sequence number has been settled by validation, so the opaque parts are
compared. -/
def SAME_STATEID (id4 : stateid4) (state : state_t) : Bool :=
  id4.other == state.stateid_other

/-- The all-zero and the all-ones special stateids. -/
def stateid_is_special (id4 : stateid4) : Bool :=
  (id4.seqid == 0 && id4.other == 0) ||
  (id4.seqid == 4294967295 && id4.other == 79228162514264337593543950335)

/-- Modelled from the spec: `nfs4_Check_Stateid` is not in src. Section 4.3:
the special stateids are recognised before the lookup and DELEGRETURN never
accepts one; the state is looked up in the registry by stateid, an unknown
stateid is `BadStateid`; a stored sequence number different from the wire one
is `OldStateid`. It reads the registry and changes nothing. -/
def nfs4_Check_Stateid (stateid : stateid4) (registry : List state_t) :
    nfsstat4 × Option state_t :=
  if stateid_is_special stateid then (nfsstat4.NFS4ERR_BAD_STATEID, none)
  else
    match registry.find? (fun st => SAME_STATEID stateid st) with
    | none => (nfsstat4.NFS4ERR_BAD_STATEID, none)
    | some st =>
      if st.state_seqid ≠ stateid.seqid then (nfsstat4.NFS4ERR_OLD_STATEID, none)
      else (nfsstat4.NFS4_OK, some st)

/-- Modelled from the spec: `deleg_heuristics_recall` is not in src. Section
4.4: the recall-heuristic update "records that the delegation is no longer
outstanding, cancels any pending recall". -/
def deleg_heuristics_recall (deleg : deleg_data) : deleg_data :=
  { deleg with dd_outstanding := false, dd_recall_pending := false }

/-- Modelled from the spec: `state_del_locked` is not in src. Section 4.4: it
"remove[s] the StateObject from the registry and the delegation from the
file's list". The registry is keyed by stateid, so the removal is by key. -/
def state_del_locked (state : state_t) (s : sal_state) : sal_state :=
  { s with
    registry := s.registry.filter (fun st => st.stateid_other != state.stateid_other)
    data := { s.data with
      current_entry := { s.data.current_entry with
        deleg_list := s.data.current_entry.deleg_list.filter
          (fun d => d.dd_state.stateid_other != state.stateid_other) } }
    trace := s.trace ++ [sal_event.call_state_del_locked state.stateid_other] }

/-- Modelled from the spec: `Copy_nfs4_state_req` is not in src. Section 4.4
and 7: the request and the response as it stands at the call are recorded
against the lock owner, with the sequence number of the request. -/
def Copy_nfs4_state_req (owner : Nat) (seqid : Nat) (op : DELEGRETURN4args)
    (resp : nfs_resop4) (s : sal_state) : sal_state :=
  { s with
    owners := s.owners.map (fun o =>
      if o.so_id = owner then
        { o with so_seqid := seqid, so_args := some op, so_resp := some resp }
      else o)
    trace := s.trace ++ [sal_event.call_Copy_nfs4_state_req owner seqid resp.status] }

/-- `PTHREAD_RWLOCK_wrlock(&data->current_entry->state_lock)`. -/
def PTHREAD_RWLOCK_wrlock (s : sal_state) : sal_state :=
  { s with
    data := { s.data with current_entry := { s.data.current_entry with state_lock := true } }
    trace := s.trace ++ [sal_event.wrlock_state_lock] }

/-- `PTHREAD_RWLOCK_unlock(&data->current_entry->state_lock)`. -/
def PTHREAD_RWLOCK_unlock (s : sal_state) : sal_state :=
  { s with
    data := { s.data with current_entry := { s.data.current_entry with state_lock := false } }
    trace := s.trace ++ [sal_event.unlock_state_lock] }

/-! ## Part 1 : the handler -/

/-- Outcome of the `glist_for_each` loop of the handler. -/
inductive deleg_scan_result where
  | assert_failed
  | not_found
  | found (deleg : deleg_data)
  deriving DecidableEq, Repr

/-- The loop over `deleg_list` (lines 112-122): each entry visited must be a
delegation state (the `assert`), and the first entry with the same stateid
ends the loop. -/
def deleg_scan (id4 : stateid4) : List deleg_data → deleg_scan_result
  | [] => deleg_scan_result.not_found
  | iter_deleg :: rest =>
    if iter_deleg.dd_state.state_type ≠ state_type_t.STATE_TYPE_DELEG then
      deleg_scan_result.assert_failed
    else if SAME_STATEID id4 iter_deleg.dd_state then
      deleg_scan_result.found iter_deleg
    else deleg_scan id4 rest

/-- Write through the pointer `found_deleg`: the first entry of the list with
the same stateid is replaced by `f` of it. -/
def deleg_list_update (id4 : stateid4) (f : deleg_data → deleg_data) :
    List deleg_data → List deleg_data
  | [] => []
  | d :: rest =>
    if SAME_STATEID id4 d.dd_state then f d :: rest
    else d :: deleg_list_update id4 f rest

/-- The call `deleg_heuristics_recall(found_deleg)` as a state change. -/
def apply_deleg_heuristics_recall (id4 : stateid4) (found_deleg : deleg_data)
    (s : sal_state) : sal_state :=
  { s with
    data := { s.data with
      current_entry := { s.data.current_entry with
        deleg_list :=
          deleg_list_update id4 deleg_heuristics_recall s.data.current_entry.deleg_list } }
    trace := s.trace ++
      [sal_event.call_deleg_heuristics_recall found_deleg.dd_state.stateid_other] }

/-- The lock descriptor built at lines 136-139. -/
def delegreturn_lock_desc : fsal_lock_param_t :=
  { lock_sle_type := fsal_sle_type_t.FSAL_LEASE_LOCK
    lock_type := fsal_lock_t.FSAL_LOCK_R
    lock_start := 0
    lock_length := 0 }

/-- What a call of the handler leaves: the value returned, the result slot and
the state. -/
structure delegreturn_out where
  ret : nfsstat4
  resp : nfs_resop4
  state : sal_state
  deriving DecidableEq, Repr

/-- The handler `nfs4_op_delegreturn` (lines 61-182). `none` is the process
stopped by the `assert` of the loop (or a validation that reports NFS4_OK
without a state, which `nfs4_Check_Stateid` never does); otherwise the handler
returns. The calls to the logger are left out. -/
def nfs4_op_delegreturn (X : sal_externs) (arg_DELEGRETURN4 : DELEGRETURN4args)
    (s : sal_state) : Option delegreturn_out :=
  -- resp->resop = NFS4_OP_DELEGRETURN; status = nfs4_Is_Fh_Invalid(&data->currentFH)
  let resp0 : nfs_resop4 :=
    { resop := NFS4_OP_DELEGRETURN, status := X.nfs4_Is_Fh_Invalid s.data.currentFH }
  if resp0.status ≠ nfsstat4.NFS4_OK then
    some { ret := resp0.status, resp := resp0, state := s }
  else
    let chk := nfs4_Check_Stateid arg_DELEGRETURN4.deleg_stateid s.registry
    let resp1 : nfs_resop4 := { resp0 with status := chk.1 }
    if resp1.status ≠ nfsstat4.NFS4_OK then
      some { ret := resp1.status, resp := resp1, state := s }
    else if s.data.current_filetype ≠ object_file_type_t.REGULAR_FILE then
      some { ret := nfsstat4.NFS4ERR_INVAL
             resp := { resp1 with status := nfsstat4.NFS4ERR_INVAL }
             state := s }
    else
      match chk.2 with
      | none => none
      | some state_found =>
        let s1 := PTHREAD_RWLOCK_wrlock s
        match deleg_scan arg_DELEGRETURN4.deleg_stateid s1.data.current_entry.deleg_list with
        | deleg_scan_result.assert_failed => none
        | deleg_scan_result.not_found =>
          let resp2 : nfs_resop4 := { resp1 with status := nfsstat4.NFS4ERR_BAD_STATEID }
          some { ret := resp2.status, resp := resp2, state := PTHREAD_RWLOCK_unlock s1 }
        | deleg_scan_result.found found_deleg =>
          let lock_owner := found_deleg.dd_owner
          let lock_desc := delegreturn_lock_desc
          let s2 := apply_deleg_heuristics_recall arg_DELEGRETURN4.deleg_stateid found_deleg s1
          let state_status :=
            X.release_lease_lock s2.data.current_entry lock_owner state_found lock_desc
          let s3 : sal_state :=
            { s2 with trace := s2.trace ++
                [sal_event.call_release_lease_lock lock_owner state_found.stateid_other
                  lock_desc] }
          if state_status ≠ state_status_t.STATE_SUCCESS then
            let s4 := Copy_nfs4_state_req lock_owner arg_DELEGRETURN4.deleg_stateid.seqid
              arg_DELEGRETURN4 resp1 s3
            let resp2 : nfs_resop4 := { resp1 with status := X.nfs4_Errno_state state_status }
            some { ret := resp2.status, resp := resp2, state := PTHREAD_RWLOCK_unlock s4 }
          else
            let s4 := state_del_locked state_found s3
            let resp2 : nfs_resop4 := { resp1 with status := nfsstat4.NFS4_OK }
            let s5 := Copy_nfs4_state_req lock_owner arg_DELEGRETURN4.deleg_stateid.seqid
              arg_DELEGRETURN4 resp2 s4
            some { ret := resp2.status, resp := resp2, state := PTHREAD_RWLOCK_unlock s5 }

/-! ## Part 1 : a concrete file with one delegation and one byte-range lock -/

/-- Collaborators of a run in which the filehandle is valid and the release of
the lease lock succeeds. -/
def ex_externs_ok : sal_externs :=
  { nfs4_Is_Fh_Invalid := fun _ => nfsstat4.NFS4_OK
    release_lease_lock := fun _ _ _ _ => state_status_t.STATE_SUCCESS
    nfs4_Errno_state := fun st =>
      if st = state_status_t.STATE_SUCCESS then nfsstat4.NFS4_OK
      else nfsstat4.NFS4ERR_SERVERFAULT }

/-- Collaborators of a run in which the filehandle is valid and the backend
refuses to release the lease lock. -/
def ex_externs_fail : sal_externs :=
  { nfs4_Is_Fh_Invalid := fun _ => nfsstat4.NFS4_OK
    release_lease_lock := fun _ _ _ _ => state_status_t.STATE_FSAL_ERROR
    nfs4_Errno_state := fun st =>
      if st = state_status_t.STATE_SUCCESS then nfsstat4.NFS4_OK
      else nfsstat4.NFS4ERR_SERVERFAULT }

/-- Collaborators of a run on an invalid filehandle. -/
def ex_externs_badfh : sal_externs :=
  { nfs4_Is_Fh_Invalid := fun _ => nfsstat4.NFS4ERR_BADHANDLE
    release_lease_lock := fun _ _ _ _ => state_status_t.STATE_SUCCESS
    nfs4_Errno_state := fun _ => nfsstat4.NFS4ERR_SERVERFAULT }

/-- The delegation state of the example, stateid (seqid 1, other 7). -/
def ex_deleg_state : state_t :=
  { stateid_other := 7, state_seqid := 1
    state_type := state_type_t.STATE_TYPE_DELEG, state_owner := 100 }

/-- A byte-range lock state on the same file, stateid (seqid 1, other 9). -/
def ex_lock_state : state_t :=
  { stateid_other := 9, state_seqid := 1
    state_type := state_type_t.STATE_TYPE_LOCK, state_owner := 100 }

/-- The delegation D of the example: outstanding, with a recall pending. -/
def ex_deleg : deleg_data :=
  { dd_state := ex_deleg_state, dd_owner := 100
    dd_outstanding := true, dd_recall_pending := true, dd_last_recall := 42 }

/-- A regular file F holding D, with both states registered and the guard free. -/
def ex_state : sal_state :=
  { data :=
      { currentFH := { nfs_fh4_len := 1, nfs_fh4_val := [1] }
        current_entry := { state_lock := false, deleg_list := [ex_deleg] }
        current_filetype := object_file_type_t.REGULAR_FILE }
    registry := [ex_lock_state, ex_deleg_state]
    owners := [{ so_id := 100, so_seqid := 0, so_args := none, so_resp := none }]
    trace := [] }

/-- The same objects reached through the filehandle of a directory. -/
def ex_state_dir : sal_state :=
  { ex_state with
    data := { ex_state.data with current_filetype := object_file_type_t.DIRECTORY } }

/-- DELEGRETURN with the stateid of D. -/
def ex_arg_deleg : DELEGRETURN4args := { deleg_stateid := { seqid := 1, other := 7 } }

/-- DELEGRETURN with the stateid of the byte-range lock. -/
def ex_arg_lock : DELEGRETURN4args := { deleg_stateid := { seqid := 1, other := 9 } }

/-! ## Part 2 : types used by `fsal_internal_init_global` -/

/-- Behaviour tag of one field of the administrator record
(enum `fsal_initflag_t`). -/
inductive fsal_initflag_t where
  | FSAL_INIT_FS_DEFAULT
  | FSAL_INIT_FORCE_VALUE
  | FSAL_INIT_MAX_LIMIT
  | FSAL_INIT_MIN_LIMIT
  deriving DecidableEq, Repr

/-- Major codes of `fsal_status_t` that the FSAL start-up can return. -/
inductive fsal_errors_t where
  | ERR_FSAL_NO_ERROR
  | ERR_FSAL_PERM
  | ERR_FSAL_IO
  | ERR_FSAL_FAULT
  | ERR_FSAL_INVAL
  | ERR_FSAL_DELAY
  | ERR_FSAL_NOTSUPP
  | ERR_FSAL_SERVERFAULT
  deriving DecidableEq, Repr

/-- Status returned by an FSAL call: what `ReturnCode(major, minor)` builds. -/
structure fsal_status_t where
  major : fsal_errors_t
  minor : Int
  deriving DecidableEq, Repr

/-- Seconds and nanoseconds (`fsal_time_t`). -/
structure fsal_time_t where
  seconds : Nat
  nseconds : Nat
  deriving DecidableEq, Repr

/-- The capability descriptor (`fsal_staticfsinfo_t`), fields in the order of
the initialiser of `default_zfs_info`. Sizes and masks are unsigned integers,
flags are booleans. -/
structure fsal_staticfsinfo_t where
  maxfilesize : Nat
  maxlink : Nat
  maxnamelen : Nat
  maxpathlen : Nat
  no_trunc : Bool
  chown_restricted : Bool
  case_insensitive : Bool
  case_preserving : Bool
  fh_expire_type : Nat
  link_support : Bool
  symlink_support : Bool
  lock_support : Bool
  named_attr : Bool
  unique_handles : Bool
  lease_time : fsal_time_t
  acl_support : Nat
  cansettime : Bool
  homogenous : Bool
  supported_attrs : Nat
  maxread : Nat
  maxwrite : Nat
  umask : Nat
  auth_exportpath_xdev : Bool
  xattr_access_rights : Nat
  deriving DecidableEq, Repr

/-- The behaviour tags of the administrator record, one for each field of the
descriptor (`fs_common_info->behaviors`). -/
structure fsal_behaviors_t where
  maxfilesize : fsal_initflag_t
  maxlink : fsal_initflag_t
  maxnamelen : fsal_initflag_t
  maxpathlen : fsal_initflag_t
  no_trunc : fsal_initflag_t
  chown_restricted : fsal_initflag_t
  case_insensitive : fsal_initflag_t
  case_preserving : fsal_initflag_t
  fh_expire_type : fsal_initflag_t
  link_support : fsal_initflag_t
  symlink_support : fsal_initflag_t
  lock_support : fsal_initflag_t
  named_attr : fsal_initflag_t
  unique_handles : fsal_initflag_t
  lease_time : fsal_initflag_t
  acl_support : fsal_initflag_t
  cansettime : fsal_initflag_t
  homogenous : fsal_initflag_t
  supported_attrs : fsal_initflag_t
  maxread : fsal_initflag_t
  maxwrite : fsal_initflag_t
  umask : fsal_initflag_t
  auth_exportpath_xdev : fsal_initflag_t
  xattr_access_rights : fsal_initflag_t
  deriving DecidableEq, Repr

/-- The administrator record (`fs_common_initinfo_t`): tags and values. -/
structure fs_common_initinfo_t where
  behaviors : fsal_behaviors_t
  values : fsal_staticfsinfo_t
  deriving DecidableEq, Repr

/-- The part of `fsal_init_info_t` that is read: the log descriptor and the
maximum number of simultaneous calls (unsigned, 0 for no limit). -/
structure fsal_init_info_t where
  log_outputs : Nat
  max_fs_calls : Nat
  deriving DecidableEq, Repr

/-- The ZFS specific record; `fsal_internal_init_global` never reads it. -/
structure zfsfs_specific_initinfo_t where
  psz_zpool : Nat
  deriving DecidableEq, Repr

/-- A counting semaphore: the number of tokens left. -/
structure semaphore_t where
  count : Nat
  deriving DecidableEq, Repr

/-- The file-scope variables of fsal_internal.c that start-up writes. -/
structure fsal_globals where
  global_fs_info : fsal_staticfsinfo_t
  fsal_log : Nat
  limit_calls : Bool
  sem_fs_calls : semaphore_t
  deriving DecidableEq, Repr

/-- Constants that the initialiser of `default_zfs_info` names and that are
defined in headers outside the embedded files; they are parameters. -/
structure fsal_constants where
  FSAL_MAX_NAME_LEN : Nat
  FSAL_MAX_PATH_LEN : Nat
  FSAL_EXPTYPE_PERSISTENT : Nat
  FSAL_ACLSUPPORT_ALLOW : Nat
  POSIX_SUPPORTED_ATTRIBUTES : Nat
  deriving DecidableEq, Repr

/-! ## Part 2 : the defaults, the merge macros and the start-up function -/

/-- The compiled-in descriptor `default_zfs_info` (lines 36-61); 0400 is octal. -/
def default_zfs_info (K : fsal_constants) : fsal_staticfsinfo_t :=
  { maxfilesize := 0xFFFFFFFFFFFFFFFF
    maxlink := 1024
    maxnamelen := K.FSAL_MAX_NAME_LEN
    maxpathlen := K.FSAL_MAX_PATH_LEN
    no_trunc := true
    chown_restricted := true
    case_insensitive := false
    case_preserving := true
    fh_expire_type := K.FSAL_EXPTYPE_PERSISTENT
    link_support := true
    symlink_support := true
    lock_support := false
    named_attr := true
    unique_handles := true
    lease_time := { seconds := 10, nseconds := 0 }
    acl_support := K.FSAL_ACLSUPPORT_ALLOW
    cansettime := true
    homogenous := true
    supported_attrs := K.POSIX_SUPPORTED_ATTRIBUTES
    maxread := 0
    maxwrite := 0
    umask := 0
    auth_exportpath_xdev := false
    xattr_access_rights := 0o400 }

/-- The macro `SET_INTEGER_PARAM` (lines 243-260) as a function of the current
value of the field, its tag and the supplied value. -/
def SET_INTEGER_PARAM (cfg : Nat) (behavior : fsal_initflag_t) (value : Nat) : Nat :=
  match behavior with
  | fsal_initflag_t.FSAL_INIT_FORCE_VALUE => value
  | fsal_initflag_t.FSAL_INIT_MAX_LIMIT => if cfg > value then value else cfg
  | fsal_initflag_t.FSAL_INIT_MIN_LIMIT => if cfg < value then value else cfg
  | fsal_initflag_t.FSAL_INIT_FS_DEFAULT => cfg

/-- The macro `SET_BITMAP_PARAM` (lines 262-277). -/
def SET_BITMAP_PARAM (cfg : Nat) (behavior : fsal_initflag_t) (value : Nat) : Nat :=
  match behavior with
  | fsal_initflag_t.FSAL_INIT_FORCE_VALUE => value
  | fsal_initflag_t.FSAL_INIT_MAX_LIMIT => cfg &&& value
  | fsal_initflag_t.FSAL_INIT_MIN_LIMIT => cfg ||| value
  | fsal_initflag_t.FSAL_INIT_FS_DEFAULT => cfg

/-- The macro `SET_BOOLEAN_PARAM` (lines 279-294); both limit cases are
`cfg && value` in the source. -/
def SET_BOOLEAN_PARAM (cfg : Bool) (behavior : fsal_initflag_t) (value : Bool) : Bool :=
  match behavior with
  | fsal_initflag_t.FSAL_INIT_FORCE_VALUE => value
  | fsal_initflag_t.FSAL_INIT_MAX_LIMIT => cfg && value
  | fsal_initflag_t.FSAL_INIT_MIN_LIMIT => cfg && value
  | fsal_initflag_t.FSAL_INIT_FS_DEFAULT => cfg

/-- The boolean merge as section 4.1 of the specification words it: FORCE
replaces, clamp-max and clamp-min both reduce to logical AND, DEFAULT leaves
the field as it is. -/
def spec_boolean_merge (current : Bool) (tag : fsal_initflag_t) (supplied : Bool) : Bool :=
  if tag = fsal_initflag_t.FSAL_INIT_FORCE_VALUE then supplied
  else if tag = fsal_initflag_t.FSAL_INIT_FS_DEFAULT then current
  else (current && supplied)

/-- The test of lines 339-349: some field that cannot be overridden carries a
tag other than FSAL_INIT_FS_DEFAULT. -/
def unsettable_overridden (b : fsal_behaviors_t) : Bool :=
  (b.maxfilesize != fsal_initflag_t.FSAL_INIT_FS_DEFAULT) ||
  (b.maxlink != fsal_initflag_t.FSAL_INIT_FS_DEFAULT) ||
  (b.maxnamelen != fsal_initflag_t.FSAL_INIT_FS_DEFAULT) ||
  (b.maxpathlen != fsal_initflag_t.FSAL_INIT_FS_DEFAULT) ||
  (b.no_trunc != fsal_initflag_t.FSAL_INIT_FS_DEFAULT) ||
  (b.case_insensitive != fsal_initflag_t.FSAL_INIT_FS_DEFAULT) ||
  (b.case_preserving != fsal_initflag_t.FSAL_INIT_FS_DEFAULT) ||
  (b.named_attr != fsal_initflag_t.FSAL_INIT_FS_DEFAULT) ||
  (b.lease_time != fsal_initflag_t.FSAL_INIT_FS_DEFAULT) ||
  (b.supported_attrs != fsal_initflag_t.FSAL_INIT_FS_DEFAULT) ||
  (b.homogenous != fsal_initflag_t.FSAL_INIT_FS_DEFAULT)

/-- Modelled from the spec: `semaphore_init` (SemN.h) is not in src. Section
4.2: "a fixed-size counting semaphore sized at startup"; when the set-up
succeeds (`rc = 0`) the semaphore holds `value` tokens, when it fails the
semaphore is left as it was. `rc` is the return code of the call. -/
def semaphore_init (rc : Int) (sem : semaphore_t) (value : Nat) : semaphore_t :=
  if rc = 0 then { count := value } else sem

/-- The nine merges of lines 352-364, in source order, applied to
`global_fs_info`. -/
def merge_fs_common_info (cfg : fsal_staticfsinfo_t) (p_init_info : fs_common_initinfo_t) :
    fsal_staticfsinfo_t :=
  let cfg := { cfg with
    symlink_support := SET_BOOLEAN_PARAM cfg.symlink_support
      p_init_info.behaviors.symlink_support p_init_info.values.symlink_support }
  let cfg := { cfg with
    link_support := SET_BOOLEAN_PARAM cfg.link_support
      p_init_info.behaviors.link_support p_init_info.values.link_support }
  let cfg := { cfg with
    lock_support := SET_BOOLEAN_PARAM cfg.lock_support
      p_init_info.behaviors.lock_support p_init_info.values.lock_support }
  let cfg := { cfg with
    cansettime := SET_BOOLEAN_PARAM cfg.cansettime
      p_init_info.behaviors.cansettime p_init_info.values.cansettime }
  let cfg := { cfg with
    maxread := SET_INTEGER_PARAM cfg.maxread
      p_init_info.behaviors.maxread p_init_info.values.maxread }
  let cfg := { cfg with
    maxwrite := SET_INTEGER_PARAM cfg.maxwrite
      p_init_info.behaviors.maxwrite p_init_info.values.maxwrite }
  let cfg := { cfg with
    umask := SET_BITMAP_PARAM cfg.umask
      p_init_info.behaviors.umask p_init_info.values.umask }
  let cfg := { cfg with
    auth_exportpath_xdev := SET_BOOLEAN_PARAM cfg.auth_exportpath_xdev
      p_init_info.behaviors.auth_exportpath_xdev p_init_info.values.auth_exportpath_xdev }
  { cfg with
    xattr_access_rights := SET_BITMAP_PARAM cfg.xattr_access_rights
      p_init_info.behaviors.xattr_access_rights p_init_info.values.xattr_access_rights }

/-- The function `fsal_internal_init_global` (lines 299-415). A null pointer
argument is `none`; `sem_rc` is what `semaphore_init` returns when it is
called; the result is the status returned and the file-scope variables as the
call leaves them. The calls to the logger are left out. -/
def fsal_internal_init_global (K : fsal_constants) (sem_rc : Int)
    (fsal_info : Option fsal_init_info_t) (fs_common_info : Option fs_common_initinfo_t)
    (_fs_specific_info : Option zfsfs_specific_initinfo_t) (g : fsal_globals) :
    fsal_status_t × fsal_globals :=
  match fsal_info, fs_common_info with
  | none, _ => ({ major := fsal_errors_t.ERR_FSAL_FAULT, minor := 0 }, g)
  | _, none => ({ major := fsal_errors_t.ERR_FSAL_FAULT, minor := 0 }, g)
  | some fsal_info, some fs_common_info =>
    let g := { g with fsal_log := fsal_info.log_outputs }
    -- inits FS call semaphore
    let g :=
      if fsal_info.max_fs_calls > 0 then
        { g with
          limit_calls := true
          sem_fs_calls := semaphore_init sem_rc g.sem_fs_calls fsal_info.max_fs_calls }
      else g
    if fsal_info.max_fs_calls > 0 ∧ sem_rc ≠ 0 then
      ({ major := fsal_errors_t.ERR_FSAL_SERVERFAULT, minor := sem_rc }, g)
    else
      -- setting default values
      let g := { g with global_fs_info := default_zfs_info K }
      if unsettable_overridden fs_common_info.behaviors then
        ({ major := fsal_errors_t.ERR_FSAL_NOTSUPP, minor := 0 }, g)
      else
        ({ major := fsal_errors_t.ERR_FSAL_NO_ERROR, minor := 0 },
          { g with global_fs_info := merge_fs_common_info g.global_fs_info fs_common_info })

/-! ## Part 2 : a concrete start-up -/

/-- Values for the constants of the headers, as on a POSIX system. -/
def ex_constants : fsal_constants :=
  { FSAL_MAX_NAME_LEN := 256
    FSAL_MAX_PATH_LEN := 1024
    FSAL_EXPTYPE_PERSISTENT := 1
    FSAL_ACLSUPPORT_ALLOW := 1
    POSIX_SUPPORTED_ATTRIBUTES := 0x3FFFF }

/-- A descriptor with every field zero, as file-scope storage is at load. -/
def zero_fs_info : fsal_staticfsinfo_t :=
  { maxfilesize := 0, maxlink := 0, maxnamelen := 0, maxpathlen := 0
    no_trunc := false, chown_restricted := false, case_insensitive := false
    case_preserving := false, fh_expire_type := 0, link_support := false
    symlink_support := false, lock_support := false, named_attr := false
    unique_handles := false, lease_time := { seconds := 0, nseconds := 0 }
    acl_support := 0, cansettime := false, homogenous := false, supported_attrs := 0
    maxread := 0, maxwrite := 0, umask := 0, auth_exportpath_xdev := false
    xattr_access_rights := 0 }

/-- The file-scope variables before start-up: `limit_calls = FALSE`, the rest
zero. -/
def ex_globals : fsal_globals :=
  { global_fs_info := zero_fs_info, fsal_log := 0, limit_calls := false
    sem_fs_calls := { count := 0 } }

/-- Every tag FSAL_INIT_FS_DEFAULT. -/
def all_default_behaviors : fsal_behaviors_t :=
  { maxfilesize := fsal_initflag_t.FSAL_INIT_FS_DEFAULT
    maxlink := fsal_initflag_t.FSAL_INIT_FS_DEFAULT
    maxnamelen := fsal_initflag_t.FSAL_INIT_FS_DEFAULT
    maxpathlen := fsal_initflag_t.FSAL_INIT_FS_DEFAULT
    no_trunc := fsal_initflag_t.FSAL_INIT_FS_DEFAULT
    chown_restricted := fsal_initflag_t.FSAL_INIT_FS_DEFAULT
    case_insensitive := fsal_initflag_t.FSAL_INIT_FS_DEFAULT
    case_preserving := fsal_initflag_t.FSAL_INIT_FS_DEFAULT
    fh_expire_type := fsal_initflag_t.FSAL_INIT_FS_DEFAULT
    link_support := fsal_initflag_t.FSAL_INIT_FS_DEFAULT
    symlink_support := fsal_initflag_t.FSAL_INIT_FS_DEFAULT
    lock_support := fsal_initflag_t.FSAL_INIT_FS_DEFAULT
    named_attr := fsal_initflag_t.FSAL_INIT_FS_DEFAULT
    unique_handles := fsal_initflag_t.FSAL_INIT_FS_DEFAULT
    lease_time := fsal_initflag_t.FSAL_INIT_FS_DEFAULT
    acl_support := fsal_initflag_t.FSAL_INIT_FS_DEFAULT
    cansettime := fsal_initflag_t.FSAL_INIT_FS_DEFAULT
    homogenous := fsal_initflag_t.FSAL_INIT_FS_DEFAULT
    supported_attrs := fsal_initflag_t.FSAL_INIT_FS_DEFAULT
    maxread := fsal_initflag_t.FSAL_INIT_FS_DEFAULT
    maxwrite := fsal_initflag_t.FSAL_INIT_FS_DEFAULT
    umask := fsal_initflag_t.FSAL_INIT_FS_DEFAULT
    auth_exportpath_xdev := fsal_initflag_t.FSAL_INIT_FS_DEFAULT
    xattr_access_rights := fsal_initflag_t.FSAL_INIT_FS_DEFAULT }

/-- The start-up record of the examples: no limit on simultaneous calls. -/
def ex_fsal_info : fsal_init_info_t := { log_outputs := 1, max_fs_calls := 0 }

/-- An administrator record that overrides nothing. -/
def ex_admin_default : fs_common_initinfo_t :=
  { behaviors := all_default_behaviors, values := zero_fs_info }

/-- An administrator record that forces `maxfilesize`, a field that cannot be
overridden. -/
def ex_admin_maxfilesize : fs_common_initinfo_t :=
  { behaviors := { all_default_behaviors with
      maxfilesize := fsal_initflag_t.FSAL_INIT_FORCE_VALUE }
    values := { zero_fs_info with maxfilesize := 4096 } }

/-- An administrator record that forces `chown_restricted` to FALSE,
`fh_expire_type` to 7, `unique_handles` to FALSE and `acl_support` to 9. -/
def ex_admin_force_unmerged : fs_common_initinfo_t :=
  { behaviors := { all_default_behaviors with
      chown_restricted := fsal_initflag_t.FSAL_INIT_FORCE_VALUE
      fh_expire_type := fsal_initflag_t.FSAL_INIT_FORCE_VALUE
      unique_handles := fsal_initflag_t.FSAL_INIT_FORCE_VALUE
      acl_support := fsal_initflag_t.FSAL_INIT_FORCE_VALUE }
    values := { zero_fs_info with
      chown_restricted := false, fh_expire_type := 7, unique_handles := false
      acl_support := 9 } }

/-- An administrator record that forces the nine merged fields. -/
def ex_admin_force_merged : fs_common_initinfo_t :=
  { behaviors := { all_default_behaviors with
      symlink_support := fsal_initflag_t.FSAL_INIT_FORCE_VALUE
      link_support := fsal_initflag_t.FSAL_INIT_FORCE_VALUE
      lock_support := fsal_initflag_t.FSAL_INIT_FORCE_VALUE
      cansettime := fsal_initflag_t.FSAL_INIT_FORCE_VALUE
      maxread := fsal_initflag_t.FSAL_INIT_FORCE_VALUE
      maxwrite := fsal_initflag_t.FSAL_INIT_FORCE_VALUE
      umask := fsal_initflag_t.FSAL_INIT_FORCE_VALUE
      auth_exportpath_xdev := fsal_initflag_t.FSAL_INIT_FORCE_VALUE
      xattr_access_rights := fsal_initflag_t.FSAL_INIT_FORCE_VALUE }
    values := { zero_fs_info with
      symlink_support := false, link_support := false, lock_support := true
      cansettime := false, maxread := 1024, maxwrite := 2048, umask := 0o22
      auth_exportpath_xdev := true, xattr_access_rights := 0o600 } }

/-! ## Part 3 : call statistics and the token functions of fsal_internal.c -/

/-- What `fsal_increment_nbcall` uses and the embedded files do not define:
the number of FSAL functions `FSAL_NB_FUNC` (a signed `int` constant), the
width in bits of one counter of `fsal_statistics_t`, the macro `FSAL_IS_ERROR`
and the backend-defined classifier `fsal_is_retryable`. They are parameters. -/
structure fsal_stat_externs where
  FSAL_NB_FUNC : Nat
  counter_bits : Nat
  FSAL_IS_ERROR : fsal_status_t → Bool
  fsal_is_retryable : fsal_status_t → Bool

/-- The four counter arrays of `fsal_statistics_t.func_stats`, each declared
with `FSAL_NB_FUNC` elements. -/
structure func_stats_t where
  nb_call : List Nat
  nb_success : List Nat
  nb_err_retryable : List Nat
  nb_err_unrecover : List Nat
  deriving DecidableEq, Repr

/-- A block of call statistics (`fsal_statistics_t`). -/
structure fsal_statistics_t where
  func_stats : func_stats_t
  deriving DecidableEq, Repr

/-- The calling thread as the statistics functions see it: the value stored
under `key_stats`, `none` for NULL (no block yet). -/
structure fsal_thread_state where
  key_stats : Option fsal_statistics_t
  deriving DecidableEq, Repr

/-- An invalid memory access of the C code: the run has no defined result. -/
inductive mem_fault where
  | null_dereference
  | index_out_of_range
  deriving DecidableEq, Repr

/-- Element `i` of a counter array. -/
def counter_at (a : List Nat) (i : Nat) : Nat := a.getD i 0

/-- The arrays of a block have their declared size. -/
def stats_well_formed (E : fsal_stat_externs) (b : fsal_statistics_t) : Prop :=
  b.func_stats.nb_call.length = E.FSAL_NB_FUNC ∧
  b.func_stats.nb_success.length = E.FSAL_NB_FUNC ∧
  b.func_stats.nb_err_retryable.length = E.FSAL_NB_FUNC ∧
  b.func_stats.nb_err_unrecover.length = E.FSAL_NB_FUNC

/-- The block as the loops of lines 133-139 and 198-204 leave it: every
counter of every index is 0. -/
def zero_statistics (E : fsal_stat_externs) : fsal_statistics_t :=
  { func_stats :=
      { nb_call := List.replicate E.FSAL_NB_FUNC 0
        nb_success := List.replicate E.FSAL_NB_FUNC 0
        nb_err_retryable := List.replicate E.FSAL_NB_FUNC 0
        nb_err_unrecover := List.replicate E.FSAL_NB_FUNC 0 } }

/-- The statement `a[index]++` on an array of `FSAL_NB_FUNC` unsigned counters:
an index outside the array is an invalid access, the counter wraps at its
width. -/
def counter_increment (E : fsal_stat_externs) (a : List Nat) (index : Int) :
    Except mem_fault (List Nat) :=
  if index < 0 ∨ (E.FSAL_NB_FUNC : Int) ≤ index then
    Except.error mem_fault.index_out_of_range
  else
    Except.ok (a.set index.toNat ((counter_at a index.toNat + 1) % 2 ^ E.counter_bits))

/-- Lines 116-144 and 186-209, the same code in both functions: read the
thread's pointer; when it is NULL allocate a block (`alloc_ok` tells whether
`Mem_Alloc` returns one), zero it and store it under the key. A failed
allocation is only logged, so the zeroing loop writes through NULL as soon as
it has one iteration. The result is the local `bythread_stat` and the thread. -/
def bythread_stat_get_or_create (E : fsal_stat_externs) (alloc_ok : Bool)
    (t : fsal_thread_state) :
    Except mem_fault (Option fsal_statistics_t × fsal_thread_state) :=
  match t.key_stats with
  | some b => Except.ok (some b, t)
  | none =>
    if alloc_ok then
      Except.ok (some (zero_statistics E), { t with key_stats := some (zero_statistics E) })
    else if E.FSAL_NB_FUNC > 0 then Except.error mem_fault.null_dereference
    else Except.ok (none, { t with key_stats := none })

/-- Lines 150-157: count the call, then count it in exactly one class. -/
def increment_the_values (E : fsal_stat_externs) (function_index : Int)
    (status : fsal_status_t) (b : fsal_statistics_t) : Except mem_fault fsal_statistics_t :=
  match counter_increment E b.func_stats.nb_call function_index with
  | Except.error e => Except.error e
  | Except.ok calls =>
    let b := { b with func_stats := { b.func_stats with nb_call := calls } }
    if !E.FSAL_IS_ERROR status then
      match counter_increment E b.func_stats.nb_success function_index with
      | Except.error e => Except.error e
      | Except.ok a => Except.ok { b with func_stats := { b.func_stats with nb_success := a } }
    else if E.fsal_is_retryable status then
      match counter_increment E b.func_stats.nb_err_retryable function_index with
      | Except.error e => Except.error e
      | Except.ok a =>
        Except.ok { b with func_stats := { b.func_stats with nb_err_retryable := a } }
    else
      match counter_increment E b.func_stats.nb_err_unrecover function_index with
      | Except.error e => Except.error e
      | Except.ok a =>
        Except.ok { b with func_stats := { b.func_stats with nb_err_unrecover := a } }

/-- The function `fsal_increment_nbcall` (lines 96-161). `once_rc` is what
`pthread_once` returns, `alloc_ok` whether `Mem_Alloc` returns a block;
`function_index` is a C `int`. The result is the thread after the call, or the
invalid access the call makes. -/
def fsal_increment_nbcall (E : fsal_stat_externs) (once_rc : Int) (alloc_ok : Bool)
    (function_index : Int) (status : fsal_status_t) (t : fsal_thread_state) :
    Except mem_fault fsal_thread_state :=
  -- verify index
  if function_index ≥ (E.FSAL_NB_FUNC : Int) then Except.ok t
  else if once_rc ≠ 0 then Except.ok t
  else
    match bythread_stat_get_or_create E alloc_ok t with
    | Except.error e => Except.error e
    | Except.ok (bythread_stat, t) =>
      match bythread_stat with
      | none => Except.ok t
      | some b =>
        match increment_the_values E function_index status b with
        | Except.error e => Except.error e
        | Except.ok b => Except.ok { t with key_stats := some b }

/-- The function `fsal_internal_getstats` (lines 173-216). `output_stats` is
`none` for a NULL pointer and otherwise what the pointer designates before the
call; the result is the thread and what `output_stats` designates after it. -/
def fsal_internal_getstats (E : fsal_stat_externs) (once_rc : Int) (alloc_ok : Bool)
    (output_stats : Option fsal_statistics_t) (t : fsal_thread_state) :
    Except mem_fault (fsal_thread_state × Option fsal_statistics_t) :=
  if once_rc ≠ 0 then Except.ok (t, output_stats)
  else
    match bythread_stat_get_or_create E alloc_ok t with
    | Except.error e => Except.error e
    | Except.ok (bythread_stat, t) =>
      match output_stats with
      | none => Except.ok (t, none)
      | some _ =>
        match bythread_stat with
        | none => Except.error mem_fault.null_dereference
        | some b => Except.ok (t, some b)

/-- The states of a thread's statistics reachable from the lazily created
all-zero block by calls of `fsal_internal_getstats` and by calls of
`fsal_increment_nbcall` whose `function_index` is not negative, that is, by the
calls that stay inside the counter arrays. A call with a negative index is
not a step of this relation: it passes the test of line 103 and writes outside
the arrays. -/
inductive stats_reachable_nonneg (E : fsal_stat_externs) : fsal_thread_state → Prop where
  | created : stats_reachable_nonneg E { key_stats := some (zero_statistics E) }
  | increment (t t' : fsal_thread_state) (once_rc : Int) (alloc_ok : Bool)
      (function_index : Int) (status : fsal_status_t) :
      stats_reachable_nonneg E t →
      0 ≤ function_index →
      fsal_increment_nbcall E once_rc alloc_ok function_index status t = Except.ok t' →
      stats_reachable_nonneg E t'
  | getstats (t t' : fsal_thread_state) (once_rc : Int) (alloc_ok : Bool)
      (output_stats output_after : Option fsal_statistics_t) :
      stats_reachable_nonneg E t →
      fsal_internal_getstats E once_rc alloc_ok output_stats t =
        Except.ok (t', output_after) →
      stats_reachable_nonneg E t'

/-- A semaphore operation made by a token function. -/
inductive semaphore_op where
  | semaphore_P
  | semaphore_V
  deriving DecidableEq, Repr

/-- What a token function leaves: the file-scope variables, the semaphore
operations it made, and whether it has returned (`false` when the caller is
left waiting inside `semaphore_P`). -/
structure token_call where
  globals : fsal_globals
  sem_ops : List semaphore_op
  returned : Bool
  deriving DecidableEq, Repr

/-- Modelled from the spec: `semaphore_P` (SemN.h) is not in src. Section 4.2:
acquire "blocks (uninterruptibly, no timeout) until a permit is available";
with a token left it takes one, with none the caller waits (`none`). -/
def semaphore_P (sem : semaphore_t) : Option semaphore_t :=
  if sem.count > 0 then some { count := sem.count - 1 } else none

/-- Modelled from the spec: `semaphore_V` (SemN.h) is not in src. Section 4.2:
release "returns the permit". -/
def semaphore_V (sem : semaphore_t) : semaphore_t :=
  { count := sem.count + 1 }

/-- The function `TakeTokenFSCall` (lines 221-230). -/
def TakeTokenFSCall (g : fsal_globals) : token_call :=
  if g.limit_calls = false then { globals := g, sem_ops := [], returned := true }
  else
    match semaphore_P g.sem_fs_calls with
    | some sem =>
      { globals := { g with sem_fs_calls := sem }
        sem_ops := [semaphore_op.semaphore_P], returned := true }
    | none => { globals := g, sem_ops := [semaphore_op.semaphore_P], returned := false }

/-- The function `ReleaseTokenFSCall` (lines 232-241). -/
def ReleaseTokenFSCall (g : fsal_globals) : token_call :=
  if g.limit_calls = false then { globals := g, sem_ops := [], returned := true }
  else
    { globals := { g with sem_fs_calls := semaphore_V g.sem_fs_calls }
      sem_ops := [semaphore_op.semaphore_V], returned := true }

/-! ## Part 3 : concrete statistics -/

/-- Two FSAL functions, 32-bit counters, an error is a major code other than
ERR_FSAL_NO_ERROR, and ERR_FSAL_DELAY is the retryable one. -/
def ex_stat_externs : fsal_stat_externs :=
  { FSAL_NB_FUNC := 2
    counter_bits := 32
    FSAL_IS_ERROR := fun st => st.major != fsal_errors_t.ERR_FSAL_NO_ERROR
    fsal_is_retryable := fun st => st.major == fsal_errors_t.ERR_FSAL_DELAY }

/-- A successful status. -/
def ex_status_ok : fsal_status_t := { major := fsal_errors_t.ERR_FSAL_NO_ERROR, minor := 0 }

/-- A retryable failure. -/
def ex_status_delay : fsal_status_t := { major := fsal_errors_t.ERR_FSAL_DELAY, minor := 0 }

/-- A thread that has made no FSAL call yet. -/
def ex_thread_new : fsal_thread_state := { key_stats := none }

/-- The block of a thread whose function 0 has been called 2^32 - 1 times, all
with success. -/
def ex_statistics_full : fsal_statistics_t :=
  { func_stats :=
      { nb_call := [4294967295, 0]
        nb_success := [4294967295, 0]
        nb_err_retryable := [0, 0]
        nb_err_unrecover := [0, 0] } }

/-- The thread that owns `ex_statistics_full`. -/
def ex_thread_full : fsal_thread_state := { key_stats := some ex_statistics_full }

/-- A start-up record that limits the simultaneous calls to 3. -/
def ex_fsal_info_limited : fsal_init_info_t := { log_outputs := 1, max_fs_calls := 3 }

/-! ## Part 1 : facts about the collaborators and the loop -/

theorem SAME_STATEID_iff (id4 : stateid4) (state : state_t) :
    SAME_STATEID id4 state = true ↔ id4.other = state.stateid_other := by
  simp [SAME_STATEID]

theorem nfs4_Check_Stateid_ok (id4 : stateid4) (registry : List state_t)
    (h : (nfs4_Check_Stateid id4 registry).1 = nfsstat4.NFS4_OK) :
    ∃ st, nfs4_Check_Stateid id4 registry = (nfsstat4.NFS4_OK, some st) ∧
      st ∈ registry ∧ id4.other = st.stateid_other ∧ st.state_seqid = id4.seqid := by
  unfold nfs4_Check_Stateid at h ⊢
  by_cases hsp : stateid_is_special id4 = true
  · simp [hsp] at h
  · simp only [hsp] at h ⊢
    cases hf : registry.find? (fun st => SAME_STATEID id4 st) with
    | none => simp [hf] at h
    | some st =>
      by_cases hseq : st.state_seqid = id4.seqid
      · refine ⟨st, by simp [hseq], List.mem_of_find?_eq_some hf, ?_, hseq⟩
        have := List.find?_some hf
        exact (SAME_STATEID_iff id4 st).1 this
      · simp [hf, hseq] at h

theorem nfs4_Check_Stateid_removed (id4 : stateid4) (registry : List state_t) :
    nfs4_Check_Stateid id4 (registry.filter (fun st => st.stateid_other != id4.other)) =
      (nfsstat4.NFS4ERR_BAD_STATEID, none) := by
  unfold nfs4_Check_Stateid
  by_cases hsp : stateid_is_special id4 = true
  · simp [hsp]
  · have hnone : (registry.filter (fun st => st.stateid_other != id4.other)).find?
        (fun st => SAME_STATEID id4 st) = none := by
      rw [List.find?_eq_none]
      intro st hst
      have h2 := (List.mem_filter.1 hst).2
      simp only [bne_iff_ne, ne_eq] at h2
      simp only [SAME_STATEID, beq_iff_eq]
      intro h3
      exact h2 h3.symm
    simp [hsp, hnone]

theorem deleg_scan_found (id4 : stateid4) (l : List deleg_data)
    (h_wf : ∀ d ∈ l, d.dd_state.state_type = state_type_t.STATE_TYPE_DELEG)
    (h_has : ∃ D ∈ l, SAME_STATEID id4 D.dd_state = true) :
    ∃ d, deleg_scan id4 l = deleg_scan_result.found d ∧ d ∈ l ∧
      SAME_STATEID id4 d.dd_state = true := by
  induction l with
  | nil => obtain ⟨D, hD, _⟩ := h_has; simp at hD
  | cons a rest ih =>
    have ha : a.dd_state.state_type = state_type_t.STATE_TYPE_DELEG :=
      h_wf a (List.mem_cons_self a rest)
    by_cases hs : SAME_STATEID id4 a.dd_state = true
    · exact ⟨a, by simp [deleg_scan, ha, hs], List.mem_cons_self a rest, hs⟩
    · obtain ⟨D, hD, hDs⟩ := h_has
      have hDrest : D ∈ rest := by
        rcases List.mem_cons.1 hD with h | h
        · subst h; exact absurd hDs hs
        · exact h
      obtain ⟨d, hd1, hd2, hd3⟩ :=
        ih (fun d hd => h_wf d (List.mem_cons_of_mem a hd)) ⟨D, hDrest, hDs⟩
      exact ⟨d, by simp [deleg_scan, ha, hs, hd1], List.mem_cons_of_mem a hd2, hd3⟩

theorem deleg_scan_not_found (id4 : stateid4) (l : List deleg_data)
    (h_wf : ∀ d ∈ l, d.dd_state.state_type = state_type_t.STATE_TYPE_DELEG)
    (h_none : ∀ d ∈ l, SAME_STATEID id4 d.dd_state = false) :
    deleg_scan id4 l = deleg_scan_result.not_found := by
  induction l with
  | nil => rfl
  | cons a rest ih =>
    have ha := h_wf a (List.mem_cons_self a rest)
    have hs := h_none a (List.mem_cons_self a rest)
    simp [deleg_scan, ha, hs]
    exact ih (fun d hd => h_wf d (List.mem_cons_of_mem a hd))
      (fun d hd => h_none d (List.mem_cons_of_mem a hd))

theorem deleg_scan_wf (id4 : stateid4) (l : List deleg_data)
    (h_wf : ∀ d ∈ l, d.dd_state.state_type = state_type_t.STATE_TYPE_DELEG) :
    deleg_scan id4 l ≠ deleg_scan_result.assert_failed := by
  induction l with
  | nil => simp [deleg_scan]
  | cons a rest ih =>
    have ha := h_wf a (List.mem_cons_self a rest)
    by_cases hs : SAME_STATEID id4 a.dd_state = true
    · simp [deleg_scan, ha, hs]
    · simp [deleg_scan, ha, hs]
      exact ih (fun d hd => h_wf d (List.mem_cons_of_mem a hd))

theorem deleg_list_update_states (id4 : stateid4) (l : List deleg_data) :
    (deleg_list_update id4 deleg_heuristics_recall l).map
        (fun d => (d.dd_state, d.dd_owner, d.dd_last_recall)) =
      l.map (fun d => (d.dd_state, d.dd_owner, d.dd_last_recall)) := by
  induction l with
  | nil => rfl
  | cons a rest ih =>
    by_cases hs : SAME_STATEID id4 a.dd_state = true
    · simp [deleg_list_update, hs, deleg_heuristics_recall]
    · simp [deleg_list_update, hs, ih]

theorem deleg_list_update_filter (id4 : stateid4) (l : List deleg_data) :
    (deleg_list_update id4 deleg_heuristics_recall l).filter
        (fun d => d.dd_state.stateid_other != id4.other) =
      l.filter (fun d => d.dd_state.stateid_other != id4.other) := by
  induction l with
  | nil => rfl
  | cons a rest ih =>
    by_cases hs : SAME_STATEID id4 a.dd_state = true
    · have h1 : a.dd_state.stateid_other = id4.other := ((SAME_STATEID_iff id4 _).1 hs).symm
      simp [deleg_list_update, hs, deleg_heuristics_recall, List.filter_cons, h1]
    · simp [deleg_list_update, hs, List.filter_cons, ih]

/-! ## Part 1 : the claims on `nfs4_op_delegreturn` -/

/-- C1. A DELEGRETURN on a regular file F with a valid filehandle and a stateid
S that passes validation, names a delegation of F's list and whose lease lock
is released with success, returns NFS4_OK; `state_del_locked` is applied to the
state found, after which neither the registry holds that state nor F's list a
delegation with stateid S (the list is the old one without the delegations of
stateid S); the guard is free again; and a second DELEGRETURN with the same S
returns NFS4ERR_BAD_STATEID and changes nothing. -/
theorem delegreturn_success_removes_delegation
    (X : sal_externs) (arg : DELEGRETURN4args) (s : sal_state) (state_found : state_t)
    (h_fh : X.nfs4_Is_Fh_Invalid s.data.currentFH = nfsstat4.NFS4_OK)
    (h_chk : nfs4_Check_Stateid arg.deleg_stateid s.registry =
      (nfsstat4.NFS4_OK, some state_found))
    (h_type : s.data.current_filetype = object_file_type_t.REGULAR_FILE)
    (h_wf : ∀ d ∈ s.data.current_entry.deleg_list,
      d.dd_state.state_type = state_type_t.STATE_TYPE_DELEG)
    (h_has : ∃ D ∈ s.data.current_entry.deleg_list,
      SAME_STATEID arg.deleg_stateid D.dd_state = true)
    (h_rel : ∀ D ∈ s.data.current_entry.deleg_list,
      SAME_STATEID arg.deleg_stateid D.dd_state = true →
      X.release_lease_lock
        { state_lock := true
          deleg_list := deleg_list_update arg.deleg_stateid deleg_heuristics_recall
            s.data.current_entry.deleg_list }
        D.dd_owner state_found delegreturn_lock_desc = state_status_t.STATE_SUCCESS) :
    ∃ out, nfs4_op_delegreturn X arg s = some out ∧
      out.ret = nfsstat4.NFS4_OK ∧ out.resp.status = nfsstat4.NFS4_OK ∧
      (∃ owner, out.state.trace = s.trace ++
        [sal_event.wrlock_state_lock,
         sal_event.call_deleg_heuristics_recall arg.deleg_stateid.other,
         sal_event.call_release_lease_lock owner state_found.stateid_other
           delegreturn_lock_desc,
         sal_event.call_state_del_locked state_found.stateid_other,
         sal_event.call_Copy_nfs4_state_req owner arg.deleg_stateid.seqid nfsstat4.NFS4_OK,
         sal_event.unlock_state_lock]) ∧
      out.state.registry =
        s.registry.filter (fun st => st.stateid_other != arg.deleg_stateid.other) ∧
      state_found ∉ out.state.registry ∧
      out.state.data.current_entry.deleg_list =
        s.data.current_entry.deleg_list.filter
          (fun d => d.dd_state.stateid_other != arg.deleg_stateid.other) ∧
      (∀ d ∈ out.state.data.current_entry.deleg_list,
        SAME_STATEID arg.deleg_stateid d.dd_state = false) ∧
      out.state.data.current_entry.state_lock = false ∧
      ∃ out2, nfs4_op_delegreturn X arg out.state = some out2 ∧
        out2.ret = nfsstat4.NFS4ERR_BAD_STATEID ∧ out2.state = out.state := by
  obtain ⟨d, hscan, hd_mem, hd_same⟩ := deleg_scan_found _ _ h_wf h_has
  have hok : (nfs4_Check_Stateid arg.deleg_stateid s.registry).1 = nfsstat4.NFS4_OK := by
    rw [h_chk]
  obtain ⟨st, hst, _, hoth, _⟩ := nfs4_Check_Stateid_ok _ _ hok
  have hst_eq : st = state_found := by
    rw [h_chk] at hst
    simpa using hst.symm
  subst hst_eq
  have hrel := h_rel d hd_mem hd_same
  have hd_oth : d.dd_state.stateid_other = arg.deleg_stateid.other :=
    ((SAME_STATEID_iff _ _).1 hd_same).symm
  have hrun : nfs4_op_delegreturn X arg s = some
      { ret := nfsstat4.NFS4_OK
        resp := { resop := NFS4_OP_DELEGRETURN, status := nfsstat4.NFS4_OK }
        state := PTHREAD_RWLOCK_unlock (Copy_nfs4_state_req d.dd_owner arg.deleg_stateid.seqid
          arg { resop := NFS4_OP_DELEGRETURN, status := nfsstat4.NFS4_OK }
          (state_del_locked st
            { (apply_deleg_heuristics_recall arg.deleg_stateid d (PTHREAD_RWLOCK_wrlock s)) with
              trace := (apply_deleg_heuristics_recall arg.deleg_stateid d
                  (PTHREAD_RWLOCK_wrlock s)).trace ++
                [sal_event.call_release_lease_lock d.dd_owner st.stateid_other
                  delegreturn_lock_desc] })) } := by
    simp [nfs4_op_delegreturn, h_fh, h_chk, h_type, PTHREAD_RWLOCK_wrlock, hscan,
      apply_deleg_heuristics_recall, hrel]
  refine ⟨_, hrun, rfl, rfl, ⟨d.dd_owner, ?_⟩, ?_, ?_, ?_, ?_, rfl, ?_⟩
  · simp [PTHREAD_RWLOCK_unlock, Copy_nfs4_state_req, state_del_locked,
      apply_deleg_heuristics_recall, PTHREAD_RWLOCK_wrlock, hd_oth]
  · simp [PTHREAD_RWLOCK_unlock, Copy_nfs4_state_req, state_del_locked,
      apply_deleg_heuristics_recall, PTHREAD_RWLOCK_wrlock, hoth]
  · simp [PTHREAD_RWLOCK_unlock, Copy_nfs4_state_req, state_del_locked,
      apply_deleg_heuristics_recall, PTHREAD_RWLOCK_wrlock, List.mem_filter]
  · simp only [PTHREAD_RWLOCK_unlock, Copy_nfs4_state_req, state_del_locked,
      apply_deleg_heuristics_recall, PTHREAD_RWLOCK_wrlock, ← hoth]
    exact deleg_list_update_filter arg.deleg_stateid _
  · intro x hx
    simp only [PTHREAD_RWLOCK_unlock, Copy_nfs4_state_req, state_del_locked,
      apply_deleg_heuristics_recall, PTHREAD_RWLOCK_wrlock, List.mem_filter] at hx
    have h2 := hx.2
    simp only [bne_iff_ne, ne_eq, ← hoth] at h2
    simp only [SAME_STATEID, beq_eq_false_iff_ne, ne_eq]
    exact fun h3 => h2 h3.symm
  · have hreg : nfs4_Check_Stateid arg.deleg_stateid
        (s.registry.filter (fun x => x.stateid_other != st.stateid_other)) =
        (nfsstat4.NFS4ERR_BAD_STATEID, none) := by
      rw [← hoth]; exact nfs4_Check_Stateid_removed _ _
    refine ⟨⟨nfsstat4.NFS4ERR_BAD_STATEID,
      ⟨NFS4_OP_DELEGRETURN, nfsstat4.NFS4ERR_BAD_STATEID⟩, _⟩, ?_, rfl, rfl⟩
    simp [nfs4_op_delegreturn, PTHREAD_RWLOCK_unlock, Copy_nfs4_state_req, state_del_locked,
      apply_deleg_heuristics_recall, PTHREAD_RWLOCK_wrlock, h_fh, hreg]

/-- Witness of C1: the example file F with its delegation D satisfies every
hypothesis, the return of D succeeds and a second return is refused. -/
theorem delegreturn_success_removes_delegation_witness :
    ∃ out, nfs4_op_delegreturn ex_externs_ok ex_arg_deleg ex_state = some out ∧
      out.ret = nfsstat4.NFS4_OK ∧
      out.state.data.current_entry.deleg_list = [] ∧
      ∃ out2, nfs4_op_delegreturn ex_externs_ok ex_arg_deleg out.state = some out2 ∧
        out2.ret = nfsstat4.NFS4ERR_BAD_STATEID := by
  obtain ⟨out, h1, h2, _, _, _, _, h7, _, _, out2, h10, h11, _⟩ :=
    delegreturn_success_removes_delegation ex_externs_ok ex_arg_deleg ex_state ex_deleg_state
      (by decide) (by decide) (by decide) (by decide) (by decide) (by decide)
  exact ⟨out, h1, h2, by rw [h7]; decide, out2, h10, h11⟩

/-- C2. A DELEGRETURN with a valid filehandle, on a regular file, whose stateid
passes validation but is the stateid of no entry of the file's delegation list
returns NFS4ERR_BAD_STATEID; between taking and releasing the guard it calls no
collaborator (neither `deleg_heuristics_recall`, `release_lease_lock`,
`state_del_locked` nor `Copy_nfs4_state_req`), and the compound data with the
delegation list, the registry and the lock owners are as before. -/
theorem delegreturn_no_matching_delegation
    (X : sal_externs) (arg : DELEGRETURN4args) (s : sal_state)
    (h_fh : X.nfs4_Is_Fh_Invalid s.data.currentFH = nfsstat4.NFS4_OK)
    (h_chk : (nfs4_Check_Stateid arg.deleg_stateid s.registry).1 = nfsstat4.NFS4_OK)
    (h_type : s.data.current_filetype = object_file_type_t.REGULAR_FILE)
    (h_wf : ∀ d ∈ s.data.current_entry.deleg_list,
      d.dd_state.state_type = state_type_t.STATE_TYPE_DELEG)
    (h_none : ∀ d ∈ s.data.current_entry.deleg_list,
      SAME_STATEID arg.deleg_stateid d.dd_state = false) :
    ∃ out, nfs4_op_delegreturn X arg s = some out ∧
      out.ret = nfsstat4.NFS4ERR_BAD_STATEID ∧
      out.resp.status = nfsstat4.NFS4ERR_BAD_STATEID ∧
      out.state.trace = s.trace ++
        [sal_event.wrlock_state_lock, sal_event.unlock_state_lock] ∧
      out.state.data.current_entry.deleg_list = s.data.current_entry.deleg_list ∧
      out.state.registry = s.registry ∧
      out.state.owners = s.owners ∧
      out.state.data.currentFH = s.data.currentFH ∧
      out.state.data.current_filetype = s.data.current_filetype ∧
      out.state.data.current_entry.state_lock = false := by
  obtain ⟨st, hst, _, _, _⟩ := nfs4_Check_Stateid_ok _ _ h_chk
  have hscan := deleg_scan_not_found _ _ h_wf h_none
  refine ⟨⟨nfsstat4.NFS4ERR_BAD_STATEID,
    ⟨NFS4_OP_DELEGRETURN, nfsstat4.NFS4ERR_BAD_STATEID⟩,
    PTHREAD_RWLOCK_unlock (PTHREAD_RWLOCK_wrlock s)⟩, ?_, rfl, rfl, ?_, rfl, rfl, rfl, rfl,
    rfl, rfl⟩
  · simp [nfs4_op_delegreturn, h_fh, hst, h_type, PTHREAD_RWLOCK_wrlock, hscan]
  · simp [PTHREAD_RWLOCK_unlock, PTHREAD_RWLOCK_wrlock]

/-- Witness of C2: on the example file the stateid of the byte-range lock
passes validation, matches no delegation, and is refused. -/
theorem delegreturn_no_matching_delegation_witness :
    ∃ out, nfs4_op_delegreturn ex_externs_ok ex_arg_lock ex_state = some out ∧
      out.ret = nfsstat4.NFS4ERR_BAD_STATEID ∧
      out.state.trace = [sal_event.wrlock_state_lock, sal_event.unlock_state_lock] ∧
      out.state.data.current_entry.deleg_list = [ex_deleg] ∧
      out.state.registry = [ex_lock_state, ex_deleg_state] := by
  obtain ⟨out, h1, h2, _, h4, h5, h6, _⟩ :=
    delegreturn_no_matching_delegation ex_externs_ok ex_arg_lock ex_state
      (by decide) (by decide) (by decide) (by decide) (by decide)
  exact ⟨out, h1, h2, h4, h5, h6⟩

/-- C3. A DELEGRETURN with a valid filehandle and a stateid that passes
validation, on an object whose current type is not REGULAR_FILE, returns
NFS4ERR_INVAL and leaves the whole state as it was: no guard operation and no
collaborator call is logged, and the guard flag, the delegation list, the
registry and the lock owners are untouched. -/
theorem delegreturn_not_regular_file
    (X : sal_externs) (arg : DELEGRETURN4args) (s : sal_state)
    (h_fh : X.nfs4_Is_Fh_Invalid s.data.currentFH = nfsstat4.NFS4_OK)
    (h_chk : (nfs4_Check_Stateid arg.deleg_stateid s.registry).1 = nfsstat4.NFS4_OK)
    (h_type : s.data.current_filetype ≠ object_file_type_t.REGULAR_FILE) :
    nfs4_op_delegreturn X arg s = some
      { ret := nfsstat4.NFS4ERR_INVAL
        resp := { resop := NFS4_OP_DELEGRETURN, status := nfsstat4.NFS4ERR_INVAL }
        state := s } := by
  simp [nfs4_op_delegreturn, h_fh, h_chk, h_type]

/-- Witness of C3: the example objects reached as a directory. -/
theorem delegreturn_not_regular_file_witness :
    nfs4_op_delegreturn ex_externs_ok ex_arg_deleg ex_state_dir = some
      { ret := nfsstat4.NFS4ERR_INVAL
        resp := { resop := NFS4_OP_DELEGRETURN, status := nfsstat4.NFS4ERR_INVAL }
        state := ex_state_dir } ∧
    ex_state_dir.trace = [] ∧ ex_state_dir.data.current_entry.state_lock = false :=
  ⟨delegreturn_not_regular_file ex_externs_ok ex_arg_deleg ex_state_dir
    (by decide) (by decide) (by decide), by decide, by decide⟩

/-- Every run of the handler that returns either took an early exit and left
the state as it was, or logged `wrlock`, then collaborator calls only, then
`unlock`, and left the guard free. -/
theorem delegreturn_trace_shape (X : sal_externs) (arg : DELEGRETURN4args) (s : sal_state)
    (out : delegreturn_out) (h : nfs4_op_delegreturn X arg s = some out) :
    ((X.nfs4_Is_Fh_Invalid s.data.currentFH ≠ nfsstat4.NFS4_OK ∨
        (nfs4_Check_Stateid arg.deleg_stateid s.registry).1 ≠ nfsstat4.NFS4_OK ∨
        s.data.current_filetype ≠ object_file_type_t.REGULAR_FILE) ∧ out.state = s) ∨
    (¬ (X.nfs4_Is_Fh_Invalid s.data.currentFH ≠ nfsstat4.NFS4_OK ∨
        (nfs4_Check_Stateid arg.deleg_stateid s.registry).1 ≠ nfsstat4.NFS4_OK ∨
        s.data.current_filetype ≠ object_file_type_t.REGULAR_FILE) ∧
      out.state.data.current_entry.state_lock = false ∧
      ∃ mid, out.state.trace =
          s.trace ++ (sal_event.wrlock_state_lock :: (mid ++ [sal_event.unlock_state_lock])) ∧
        sal_event.wrlock_state_lock ∉ mid ∧ sal_event.unlock_state_lock ∉ mid) := by
  by_cases hfh : X.nfs4_Is_Fh_Invalid s.data.currentFH = nfsstat4.NFS4_OK
  swap
  · left
    simp [nfs4_op_delegreturn, hfh] at h
    exact ⟨Or.inl hfh, by rw [← h]⟩
  by_cases hchk : (nfs4_Check_Stateid arg.deleg_stateid s.registry).1 = nfsstat4.NFS4_OK
  swap
  · left
    simp [nfs4_op_delegreturn, hfh, hchk] at h
    exact ⟨Or.inr (Or.inl hchk), by rw [← h]⟩
  by_cases htype : s.data.current_filetype = object_file_type_t.REGULAR_FILE
  swap
  · left
    simp [nfs4_op_delegreturn, hfh, hchk, htype] at h
    exact ⟨Or.inr (Or.inr htype), by rw [← h]⟩
  right
  refine ⟨by simp [hfh, hchk, htype], ?_⟩
  obtain ⟨st, hst, _, _, _⟩ := nfs4_Check_Stateid_ok _ _ hchk
  cases hscan : deleg_scan arg.deleg_stateid s.data.current_entry.deleg_list with
  | assert_failed =>
    simp [nfs4_op_delegreturn, hfh, hst, htype, PTHREAD_RWLOCK_wrlock, hscan] at h
  | not_found =>
    simp [nfs4_op_delegreturn, hfh, hst, htype, PTHREAD_RWLOCK_wrlock, hscan] at h
    subst h
    exact ⟨rfl, [], by simp [PTHREAD_RWLOCK_unlock], by simp, by simp⟩
  | found d =>
    by_cases hrel : X.release_lease_lock
        { state_lock := true
          deleg_list := deleg_list_update arg.deleg_stateid deleg_heuristics_recall
            s.data.current_entry.deleg_list }
        d.dd_owner st delegreturn_lock_desc = state_status_t.STATE_SUCCESS
    · simp [nfs4_op_delegreturn, hfh, hst, htype, PTHREAD_RWLOCK_wrlock, hscan,
        apply_deleg_heuristics_recall, hrel] at h
      subst h
      exact ⟨rfl, [sal_event.call_deleg_heuristics_recall d.dd_state.stateid_other,
          sal_event.call_release_lease_lock d.dd_owner st.stateid_other delegreturn_lock_desc,
          sal_event.call_state_del_locked st.stateid_other,
          sal_event.call_Copy_nfs4_state_req d.dd_owner arg.deleg_stateid.seqid
            nfsstat4.NFS4_OK],
        by simp [PTHREAD_RWLOCK_unlock, Copy_nfs4_state_req, state_del_locked],
        by simp, by simp⟩
    · simp [nfs4_op_delegreturn, hfh, hst, htype, PTHREAD_RWLOCK_wrlock, hscan,
        apply_deleg_heuristics_recall, hrel] at h
      subst h
      exact ⟨rfl, [sal_event.call_deleg_heuristics_recall d.dd_state.stateid_other,
          sal_event.call_release_lease_lock d.dd_owner st.stateid_other delegreturn_lock_desc,
          sal_event.call_Copy_nfs4_state_req d.dd_owner arg.deleg_stateid.seqid
            nfsstat4.NFS4_OK],
        by simp [PTHREAD_RWLOCK_unlock, Copy_nfs4_state_req],
        by simp, by simp⟩

/-- Under the list invariant checked by the `assert` the handler returns. -/
theorem delegreturn_returns (X : sal_externs) (arg : DELEGRETURN4args) (s : sal_state)
    (h_wf : ∀ d ∈ s.data.current_entry.deleg_list,
      d.dd_state.state_type = state_type_t.STATE_TYPE_DELEG) :
    (nfs4_op_delegreturn X arg s).isSome = true := by
  by_cases hfh : X.nfs4_Is_Fh_Invalid s.data.currentFH = nfsstat4.NFS4_OK
  swap
  · simp [nfs4_op_delegreturn, hfh]
  by_cases hchk : (nfs4_Check_Stateid arg.deleg_stateid s.registry).1 = nfsstat4.NFS4_OK
  swap
  · simp [nfs4_op_delegreturn, hfh, hchk]
  by_cases htype : s.data.current_filetype = object_file_type_t.REGULAR_FILE
  swap
  · simp [nfs4_op_delegreturn, hfh, hchk, htype]
  obtain ⟨st, hst, _, _, _⟩ := nfs4_Check_Stateid_ok _ _ hchk
  have hwf := deleg_scan_wf arg.deleg_stateid _ h_wf
  cases hscan : deleg_scan arg.deleg_stateid s.data.current_entry.deleg_list with
  | assert_failed => exact absurd hscan hwf
  | not_found =>
    simp [nfs4_op_delegreturn, hfh, hst, htype, PTHREAD_RWLOCK_wrlock, hscan]
  | found d =>
    by_cases hrel : X.release_lease_lock
        { state_lock := true
          deleg_list := deleg_list_update arg.deleg_stateid deleg_heuristics_recall
            s.data.current_entry.deleg_list }
        d.dd_owner st delegreturn_lock_desc = state_status_t.STATE_SUCCESS
    · simp [nfs4_op_delegreturn, hfh, hst, htype, PTHREAD_RWLOCK_wrlock, hscan,
        apply_deleg_heuristics_recall, hrel]
    · simp [nfs4_op_delegreturn, hfh, hst, htype, PTHREAD_RWLOCK_wrlock, hscan,
        apply_deleg_heuristics_recall, hrel]

/-- C4. With the guard free at entry: whenever the delegation list satisfies
the invariant of the `assert` the handler returns; and on every run that
returns, the events `ev` it logged contain at most one `wrlock` of the file's
state_lock and as many `unlock` as `wrlock`; on the exits before the scan
(invalid filehandle, failed stateid check, object not a regular file) there is
none at all, on every other exit (no matching delegation, failed release,
success) `wrlock` is the first event, `unlock` the last, and each occurs exactly
once; the guard is not held when the handler returns. -/
theorem delegreturn_guard_balanced
    (X : sal_externs) (arg : DELEGRETURN4args) (s : sal_state)
    (h_free : s.data.current_entry.state_lock = false) :
    ((∀ d ∈ s.data.current_entry.deleg_list,
        d.dd_state.state_type = state_type_t.STATE_TYPE_DELEG) →
      ∃ out, nfs4_op_delegreturn X arg s = some out) ∧
    ∀ out, nfs4_op_delegreturn X arg s = some out →
      ∃ ev, out.state.trace = s.trace ++ ev ∧
        ev.count sal_event.wrlock_state_lock ≤ 1 ∧
        ev.count sal_event.unlock_state_lock = ev.count sal_event.wrlock_state_lock ∧
        ((X.nfs4_Is_Fh_Invalid s.data.currentFH ≠ nfsstat4.NFS4_OK ∨
            (nfs4_Check_Stateid arg.deleg_stateid s.registry).1 ≠ nfsstat4.NFS4_OK ∨
            s.data.current_filetype ≠ object_file_type_t.REGULAR_FILE) → ev = []) ∧
        (¬ (X.nfs4_Is_Fh_Invalid s.data.currentFH ≠ nfsstat4.NFS4_OK ∨
            (nfs4_Check_Stateid arg.deleg_stateid s.registry).1 ≠ nfsstat4.NFS4_OK ∨
            s.data.current_filetype ≠ object_file_type_t.REGULAR_FILE) →
          ev.count sal_event.wrlock_state_lock = 1 ∧
          ev.head? = some sal_event.wrlock_state_lock ∧
          ev.getLast? = some sal_event.unlock_state_lock) ∧
        out.state.data.current_entry.state_lock = false := by
  refine ⟨fun h_wf => Option.isSome_iff_exists.1 (delegreturn_returns X arg s h_wf), ?_⟩
  intro out hout
  rcases delegreturn_trace_shape X arg s out hout with ⟨hearly, hsame⟩ | ⟨hlate, hlock, mid, htr, hw, hu⟩
  · refine ⟨[], by rw [hsame]; simp, by simp, by simp, fun _ => rfl,
      fun h => absurd hearly h, by rw [hsame]; exact h_free⟩
  · have cw : (sal_event.wrlock_state_lock :: (mid ++ [sal_event.unlock_state_lock])).count
        sal_event.wrlock_state_lock = 1 := by
      simp [List.count_cons, List.count_append, List.count_eq_zero_of_not_mem hw]
    have cu : (sal_event.wrlock_state_lock :: (mid ++ [sal_event.unlock_state_lock])).count
        sal_event.unlock_state_lock = 1 := by
      simp [List.count_cons, List.count_append, List.count_eq_zero_of_not_mem hu]
    refine ⟨_, htr, by rw [cw], by rw [cw, cu], fun h => absurd h hlate,
      fun _ => ⟨cw, by simp, ?_⟩, hlock⟩
    rw [← List.cons_append, List.getLast?_append]
    simp

/-- Witness of C4: the guard of the example file is free, and the return of D
logs one `wrlock` first and one `unlock` last. -/
theorem delegreturn_guard_balanced_witness :
    ∃ out ev, nfs4_op_delegreturn ex_externs_ok ex_arg_deleg ex_state = some out ∧
      out.state.trace = ex_state.trace ++ ev ∧
      ev.count sal_event.wrlock_state_lock = 1 ∧
      ev.count sal_event.unlock_state_lock = 1 ∧
      out.state.data.current_entry.state_lock = false := by
  have h := delegreturn_guard_balanced ex_externs_ok ex_arg_deleg ex_state (by decide)
  obtain ⟨out, hout⟩ := h.1 (by decide)
  obtain ⟨ev, h1, _, h3, _, h5, h6⟩ := h.2 out hout
  have h7 := (h5 (by decide)).1
  exact ⟨out, ev, hout, h1, h7, by rw [h3, h7], h6⟩

/-- C5, as stated, fails: on the example file the return of D finds the
delegation, the release of the lease lock fails and the mapped error is
returned, yet the delegation list after the call differs from the list before
it, because `deleg_heuristics_recall` has already rewritten the recall
bookkeeping of D. -/
theorem delegreturn_failed_release_counterexample :
    deleg_scan ex_arg_deleg.deleg_stateid ex_state.data.current_entry.deleg_list =
      deleg_scan_result.found ex_deleg ∧
    ∃ out, nfs4_op_delegreturn ex_externs_fail ex_arg_deleg ex_state = some out ∧
      out.ret = ex_externs_fail.nfs4_Errno_state state_status_t.STATE_FSAL_ERROR ∧
      out.state.data.current_entry.deleg_list =
        [{ ex_deleg with dd_outstanding := false, dd_recall_pending := false }] ∧
      out.state.data.current_entry.deleg_list ≠ ex_state.data.current_entry.deleg_list :=
  ⟨by decide, _, rfl, by decide, by decide, by decide⟩

/-- C5, amended. A DELEGRETURN that finds a matching delegation and whose
`release_lease_lock` call fails with `status` returns
`nfs4_Errno_state status`; `state_del_locked` is not called; the registry is
unchanged and the delegation list keeps the same entries (same states, owners
and recall times, in the same order), except that `deleg_heuristics_recall`,
called before the release, has been applied to the matching entry and is not
undone; the request is saved in the lock owner and the guard is released. -/
theorem delegreturn_failed_release
    (X : sal_externs) (arg : DELEGRETURN4args) (s : sal_state) (state_found : state_t)
    (status : state_status_t)
    (h_fh : X.nfs4_Is_Fh_Invalid s.data.currentFH = nfsstat4.NFS4_OK)
    (h_chk : nfs4_Check_Stateid arg.deleg_stateid s.registry =
      (nfsstat4.NFS4_OK, some state_found))
    (h_type : s.data.current_filetype = object_file_type_t.REGULAR_FILE)
    (h_wf : ∀ d ∈ s.data.current_entry.deleg_list,
      d.dd_state.state_type = state_type_t.STATE_TYPE_DELEG)
    (h_has : ∃ D ∈ s.data.current_entry.deleg_list,
      SAME_STATEID arg.deleg_stateid D.dd_state = true)
    (h_fail : status ≠ state_status_t.STATE_SUCCESS)
    (h_rel : ∀ D ∈ s.data.current_entry.deleg_list,
      SAME_STATEID arg.deleg_stateid D.dd_state = true →
      X.release_lease_lock
        { state_lock := true
          deleg_list := deleg_list_update arg.deleg_stateid deleg_heuristics_recall
            s.data.current_entry.deleg_list }
        D.dd_owner state_found delegreturn_lock_desc = status) :
    ∃ out, nfs4_op_delegreturn X arg s = some out ∧
      out.ret = X.nfs4_Errno_state status ∧
      out.resp.status = X.nfs4_Errno_state status ∧
      (∃ owner, out.state.trace = s.trace ++
        [sal_event.wrlock_state_lock,
         sal_event.call_deleg_heuristics_recall arg.deleg_stateid.other,
         sal_event.call_release_lease_lock owner state_found.stateid_other
           delegreturn_lock_desc,
         sal_event.call_Copy_nfs4_state_req owner arg.deleg_stateid.seqid nfsstat4.NFS4_OK,
         sal_event.unlock_state_lock]) ∧
      out.state.registry = s.registry ∧
      out.state.data.current_entry.deleg_list =
        deleg_list_update arg.deleg_stateid deleg_heuristics_recall
          s.data.current_entry.deleg_list ∧
      out.state.data.current_entry.deleg_list.map
          (fun d => (d.dd_state, d.dd_owner, d.dd_last_recall)) =
        s.data.current_entry.deleg_list.map
          (fun d => (d.dd_state, d.dd_owner, d.dd_last_recall)) ∧
      out.state.data.current_entry.state_lock = false := by
  obtain ⟨d, hscan, hd_mem, hd_same⟩ := deleg_scan_found _ _ h_wf h_has
  have hrel := h_rel d hd_mem hd_same
  have hd_oth : d.dd_state.stateid_other = arg.deleg_stateid.other :=
    ((SAME_STATEID_iff _ _).1 hd_same).symm
  have hrun : nfs4_op_delegreturn X arg s = some
      { ret := X.nfs4_Errno_state status
        resp := { resop := NFS4_OP_DELEGRETURN, status := X.nfs4_Errno_state status }
        state := PTHREAD_RWLOCK_unlock (Copy_nfs4_state_req d.dd_owner arg.deleg_stateid.seqid
          arg { resop := NFS4_OP_DELEGRETURN, status := nfsstat4.NFS4_OK }
          { (apply_deleg_heuristics_recall arg.deleg_stateid d (PTHREAD_RWLOCK_wrlock s)) with
            trace := (apply_deleg_heuristics_recall arg.deleg_stateid d
                (PTHREAD_RWLOCK_wrlock s)).trace ++
              [sal_event.call_release_lease_lock d.dd_owner state_found.stateid_other
                delegreturn_lock_desc] }) } := by
    simp [nfs4_op_delegreturn, h_fh, h_chk, h_type, PTHREAD_RWLOCK_wrlock, hscan,
      apply_deleg_heuristics_recall, hrel, h_fail]
  refine ⟨_, hrun, rfl, rfl, ⟨d.dd_owner, ?_⟩, rfl, rfl, ?_, rfl⟩
  · simp [PTHREAD_RWLOCK_unlock, Copy_nfs4_state_req, apply_deleg_heuristics_recall,
      PTHREAD_RWLOCK_wrlock, hd_oth]
  · simp only [PTHREAD_RWLOCK_unlock, Copy_nfs4_state_req, apply_deleg_heuristics_recall,
      PTHREAD_RWLOCK_wrlock]
    exact deleg_list_update_states arg.deleg_stateid _

/-- Witness of C5 amended: the failed return of D on the example file. -/
theorem delegreturn_failed_release_witness :
    ∃ out, nfs4_op_delegreturn ex_externs_fail ex_arg_deleg ex_state = some out ∧
      out.ret = nfsstat4.NFS4ERR_SERVERFAULT ∧
      out.state.registry = ex_state.registry := by
  obtain ⟨out, h1, h2, _, _, h5, _⟩ :=
    delegreturn_failed_release ex_externs_fail ex_arg_deleg ex_state ex_deleg_state
      state_status_t.STATE_FSAL_ERROR
      (by decide) (by decide) (by decide) (by decide) (by decide) (by decide) (by decide)
  exact ⟨out, h1, by rw [h2]; decide, h5⟩

/-! ## Part 2 : facts about the start-up function -/

theorem unsettable_overridden_iff (b : fsal_behaviors_t) :
    unsettable_overridden b = true ↔
      (b.maxfilesize ≠ fsal_initflag_t.FSAL_INIT_FS_DEFAULT ∨
       b.maxlink ≠ fsal_initflag_t.FSAL_INIT_FS_DEFAULT ∨
       b.maxnamelen ≠ fsal_initflag_t.FSAL_INIT_FS_DEFAULT ∨
       b.maxpathlen ≠ fsal_initflag_t.FSAL_INIT_FS_DEFAULT ∨
       b.no_trunc ≠ fsal_initflag_t.FSAL_INIT_FS_DEFAULT ∨
       b.case_insensitive ≠ fsal_initflag_t.FSAL_INIT_FS_DEFAULT ∨
       b.case_preserving ≠ fsal_initflag_t.FSAL_INIT_FS_DEFAULT ∨
       b.named_attr ≠ fsal_initflag_t.FSAL_INIT_FS_DEFAULT ∨
       b.lease_time ≠ fsal_initflag_t.FSAL_INIT_FS_DEFAULT ∨
       b.supported_attrs ≠ fsal_initflag_t.FSAL_INIT_FS_DEFAULT ∨
       b.homogenous ≠ fsal_initflag_t.FSAL_INIT_FS_DEFAULT) := by
  simp only [unsettable_overridden, Bool.or_eq_true, bne_iff_ne, ne_eq, or_assoc]

/-- The start-up function past the semaphore set-up: the descriptor is set to
the defaults, then either the call is refused or the nine merges are made. -/
theorem fsal_internal_init_global_past_semaphore (K : fsal_constants) (sem_rc : Int)
    (fsal_info : fsal_init_info_t) (fs_common_info : fs_common_initinfo_t)
    (fs_specific_info : Option zfsfs_specific_initinfo_t) (g : fsal_globals)
    (h_sem : fsal_info.max_fs_calls > 0 → sem_rc = 0) :
    (unsettable_overridden fs_common_info.behaviors = true →
      (fsal_internal_init_global K sem_rc (some fsal_info) (some fs_common_info)
          fs_specific_info g).1 = { major := fsal_errors_t.ERR_FSAL_NOTSUPP, minor := 0 } ∧
      (fsal_internal_init_global K sem_rc (some fsal_info) (some fs_common_info)
          fs_specific_info g).2.global_fs_info = default_zfs_info K) ∧
    (unsettable_overridden fs_common_info.behaviors = false →
      (fsal_internal_init_global K sem_rc (some fsal_info) (some fs_common_info)
          fs_specific_info g).1 = { major := fsal_errors_t.ERR_FSAL_NO_ERROR, minor := 0 } ∧
      (fsal_internal_init_global K sem_rc (some fsal_info) (some fs_common_info)
          fs_specific_info g).2.global_fs_info =
        merge_fs_common_info (default_zfs_info K) fs_common_info) := by
  have hs : ¬ (fsal_info.max_fs_calls > 0 ∧ sem_rc ≠ 0) := fun h => h.2 (h_sem h.1)
  constructor
  · intro hu
    simp [fsal_internal_init_global, hs, hu]
  · intro hu
    simp [fsal_internal_init_global, hs, hu]

/-- A start-up that returns ERR_FSAL_NO_ERROR has made the nine merges on the
defaults. -/
theorem fsal_internal_init_global_no_error (K : fsal_constants) (sem_rc : Int)
    (fsal_info : Option fsal_init_info_t) (fs_common_info : Option fs_common_initinfo_t)
    (fs_specific_info : Option zfsfs_specific_initinfo_t) (g : fsal_globals)
    (h_ok : (fsal_internal_init_global K sem_rc fsal_info fs_common_info
      fs_specific_info g).1.major = fsal_errors_t.ERR_FSAL_NO_ERROR) :
    ∃ p, fs_common_info = some p ∧ unsettable_overridden p.behaviors = false ∧
      (fsal_internal_init_global K sem_rc fsal_info fs_common_info
        fs_specific_info g).2.global_fs_info = merge_fs_common_info (default_zfs_info K) p := by
  cases fsal_info with
  | none => simp [fsal_internal_init_global] at h_ok
  | some info =>
    cases fs_common_info with
    | none => simp [fsal_internal_init_global] at h_ok
    | some p =>
      by_cases hs : info.max_fs_calls > 0 ∧ sem_rc ≠ 0
      · simp [fsal_internal_init_global, hs] at h_ok
      · by_cases hu : unsettable_overridden p.behaviors = true
        · simp [fsal_internal_init_global, hs, hu] at h_ok
        · refine ⟨p, rfl, by simpa using hu, ?_⟩
          simp [fsal_internal_init_global, hs, hu]

/-! ## Part 2 : the claims on `fsal_internal_init_global` -/

/-- C6, as stated, fails in its clause "no capability descriptor is produced":
on an administrator record that forces `maxfilesize` the call returns
ERR_FSAL_NOTSUPP, but `global_fs_info`, all zero before the call, has been
overwritten with `default_zfs_info` (line 335 precedes the test of line 339). -/
theorem init_global_notsupp_counterexample :
    (fsal_internal_init_global ex_constants 0 (some ex_fsal_info) (some ex_admin_maxfilesize)
        none ex_globals).1 = { major := fsal_errors_t.ERR_FSAL_NOTSUPP, minor := 0 } ∧
    (fsal_internal_init_global ex_constants 0 (some ex_fsal_info) (some ex_admin_maxfilesize)
        none ex_globals).2.global_fs_info = default_zfs_info ex_constants ∧
    (fsal_internal_init_global ex_constants 0 (some ex_fsal_info) (some ex_admin_maxfilesize)
        none ex_globals).2.global_fs_info ≠ ex_globals.global_fs_info := by
  decide

/-- C6, amended. With non-null arguments and a successful semaphore set-up:
if at least one of the eleven tags of the fields that cannot be overridden is
not FSAL_INIT_FS_DEFAULT, `fsal_internal_init_global` returns ERR_FSAL_NOTSUPP
whatever the other tags and values are, and none of the administrator's values
is merged: `global_fs_info` is left equal to the compiled-in
`default_zfs_info`; when all eleven tags are FSAL_INIT_FS_DEFAULT it returns
ERR_FSAL_NO_ERROR and `global_fs_info` is the defaults merged with the
record. -/
theorem init_global_unsettable_rejected (K : fsal_constants) (sem_rc : Int)
    (fsal_info : fsal_init_info_t) (fs_common_info : fs_common_initinfo_t)
    (fs_specific_info : Option zfsfs_specific_initinfo_t) (g : fsal_globals)
    (h_sem : fsal_info.max_fs_calls > 0 → sem_rc = 0) :
    ((  fs_common_info.behaviors.maxfilesize ≠ fsal_initflag_t.FSAL_INIT_FS_DEFAULT ∨
        fs_common_info.behaviors.maxlink ≠ fsal_initflag_t.FSAL_INIT_FS_DEFAULT ∨
        fs_common_info.behaviors.maxnamelen ≠ fsal_initflag_t.FSAL_INIT_FS_DEFAULT ∨
        fs_common_info.behaviors.maxpathlen ≠ fsal_initflag_t.FSAL_INIT_FS_DEFAULT ∨
        fs_common_info.behaviors.no_trunc ≠ fsal_initflag_t.FSAL_INIT_FS_DEFAULT ∨
        fs_common_info.behaviors.case_insensitive ≠ fsal_initflag_t.FSAL_INIT_FS_DEFAULT ∨
        fs_common_info.behaviors.case_preserving ≠ fsal_initflag_t.FSAL_INIT_FS_DEFAULT ∨
        fs_common_info.behaviors.named_attr ≠ fsal_initflag_t.FSAL_INIT_FS_DEFAULT ∨
        fs_common_info.behaviors.lease_time ≠ fsal_initflag_t.FSAL_INIT_FS_DEFAULT ∨
        fs_common_info.behaviors.supported_attrs ≠ fsal_initflag_t.FSAL_INIT_FS_DEFAULT ∨
        fs_common_info.behaviors.homogenous ≠ fsal_initflag_t.FSAL_INIT_FS_DEFAULT) →
      (fsal_internal_init_global K sem_rc (some fsal_info) (some fs_common_info)
          fs_specific_info g).1 =
          { major := fsal_errors_t.ERR_FSAL_NOTSUPP, minor := 0 } ∧
      (fsal_internal_init_global K sem_rc (some fsal_info) (some fs_common_info)
          fs_specific_info g).2.global_fs_info =
          default_zfs_info K) ∧
    ((  fs_common_info.behaviors.maxfilesize = fsal_initflag_t.FSAL_INIT_FS_DEFAULT ∧
        fs_common_info.behaviors.maxlink = fsal_initflag_t.FSAL_INIT_FS_DEFAULT ∧
        fs_common_info.behaviors.maxnamelen = fsal_initflag_t.FSAL_INIT_FS_DEFAULT ∧
        fs_common_info.behaviors.maxpathlen = fsal_initflag_t.FSAL_INIT_FS_DEFAULT ∧
        fs_common_info.behaviors.no_trunc = fsal_initflag_t.FSAL_INIT_FS_DEFAULT ∧
        fs_common_info.behaviors.case_insensitive = fsal_initflag_t.FSAL_INIT_FS_DEFAULT ∧
        fs_common_info.behaviors.case_preserving = fsal_initflag_t.FSAL_INIT_FS_DEFAULT ∧
        fs_common_info.behaviors.named_attr = fsal_initflag_t.FSAL_INIT_FS_DEFAULT ∧
        fs_common_info.behaviors.lease_time = fsal_initflag_t.FSAL_INIT_FS_DEFAULT ∧
        fs_common_info.behaviors.supported_attrs = fsal_initflag_t.FSAL_INIT_FS_DEFAULT ∧
        fs_common_info.behaviors.homogenous = fsal_initflag_t.FSAL_INIT_FS_DEFAULT) →
      (fsal_internal_init_global K sem_rc (some fsal_info) (some fs_common_info)
          fs_specific_info g).1 =
          { major := fsal_errors_t.ERR_FSAL_NO_ERROR, minor := 0 } ∧
      (fsal_internal_init_global K sem_rc (some fsal_info) (some fs_common_info)
          fs_specific_info g).2.global_fs_info =
          merge_fs_common_info (default_zfs_info K) fs_common_info) := by
  have h := fsal_internal_init_global_past_semaphore K sem_rc fsal_info fs_common_info
    fs_specific_info g h_sem
  constructor
  · intro hd
    exact h.1 ((unsettable_overridden_iff _).2 hd)
  · intro hc
    apply h.2
    rcases hc with ⟨h1, h2, h3, h4, h5, h6, h7, h8, h9, h10, h11⟩
    simp [unsettable_overridden, h1, h2, h3, h4, h5, h6, h7, h8, h9, h10, h11]

/-- Witness of C6 amended: a start-up without call limit, once with
`maxfilesize` forced and once with nothing overridden. -/
theorem init_global_unsettable_rejected_witness :
    (fsal_internal_init_global ex_constants 0 (some ex_fsal_info) (some ex_admin_maxfilesize)
        none ex_globals).1 = { major := fsal_errors_t.ERR_FSAL_NOTSUPP, minor := 0 } ∧
    (fsal_internal_init_global ex_constants 0 (some ex_fsal_info) (some ex_admin_default)
        none ex_globals).1 = { major := fsal_errors_t.ERR_FSAL_NO_ERROR, minor := 0 } :=
  ⟨((init_global_unsettable_rejected ex_constants 0 ex_fsal_info ex_admin_maxfilesize
      none ex_globals (by decide)).1 (by decide)).1,
   ((init_global_unsettable_rejected ex_constants 0 ex_fsal_info ex_admin_default
      none ex_globals (by decide)).2 (by decide)).1⟩

/-- C7. For `maxread` and `maxwrite` the merged field is `SET_INTEGER_PARAM` of
the current value, the tag and the supplied value; for every current value d
and supplied value v, FSAL_INIT_MAX_LIMIT gives min(d, v), which exceeds
neither d nor v, and FSAL_INIT_MIN_LIMIT gives max(d, v), which is below
neither; d = 4096 with a maximum limit of 1024 gives 1024. -/
theorem set_integer_param_limits (d v : Nat) (cfg : fsal_staticfsinfo_t)
    (p_init_info : fs_common_initinfo_t) :
    (merge_fs_common_info cfg p_init_info).maxread =
      SET_INTEGER_PARAM cfg.maxread p_init_info.behaviors.maxread
        p_init_info.values.maxread ∧
    (merge_fs_common_info cfg p_init_info).maxwrite =
      SET_INTEGER_PARAM cfg.maxwrite p_init_info.behaviors.maxwrite
        p_init_info.values.maxwrite ∧
    SET_INTEGER_PARAM d fsal_initflag_t.FSAL_INIT_MAX_LIMIT v = min d v ∧
    SET_INTEGER_PARAM d fsal_initflag_t.FSAL_INIT_MAX_LIMIT v ≤ d ∧
    SET_INTEGER_PARAM d fsal_initflag_t.FSAL_INIT_MAX_LIMIT v ≤ v ∧
    SET_INTEGER_PARAM d fsal_initflag_t.FSAL_INIT_MIN_LIMIT v = max d v ∧
    d ≤ SET_INTEGER_PARAM d fsal_initflag_t.FSAL_INIT_MIN_LIMIT v ∧
    v ≤ SET_INTEGER_PARAM d fsal_initflag_t.FSAL_INIT_MIN_LIMIT v ∧
    SET_INTEGER_PARAM 4096 fsal_initflag_t.FSAL_INIT_MAX_LIMIT 1024 = 1024 := by
  refine ⟨rfl, rfl, ?_, ?_, ?_, ?_, ?_, ?_, by decide⟩
  all_goals simp only [SET_INTEGER_PARAM]
  all_goals split_ifs <;> omega

/-- C8, as stated, fails for `chown_restricted`, `fh_expire_type`,
`unique_handles` and `acl_support`: the negotiation below succeeds, the four
fields carry the tag FSAL_INIT_FORCE_VALUE, and each field of the resulting
`global_fs_info` differs from the supplied value (it is the default). -/
theorem init_global_force_counterexample :
    (fsal_internal_init_global ex_constants 0 (some ex_fsal_info)
        (some ex_admin_force_unmerged) none ex_globals).1.major = fsal_errors_t.ERR_FSAL_NO_ERROR ∧
    ex_admin_force_unmerged.behaviors.chown_restricted = fsal_initflag_t.FSAL_INIT_FORCE_VALUE ∧
    (fsal_internal_init_global ex_constants 0 (some ex_fsal_info)
        (some ex_admin_force_unmerged) none ex_globals).2.global_fs_info.chown_restricted ≠
      ex_admin_force_unmerged.values.chown_restricted ∧
    ex_admin_force_unmerged.behaviors.fh_expire_type = fsal_initflag_t.FSAL_INIT_FORCE_VALUE ∧
    (fsal_internal_init_global ex_constants 0 (some ex_fsal_info)
        (some ex_admin_force_unmerged) none ex_globals).2.global_fs_info.fh_expire_type ≠
      ex_admin_force_unmerged.values.fh_expire_type ∧
    ex_admin_force_unmerged.behaviors.unique_handles = fsal_initflag_t.FSAL_INIT_FORCE_VALUE ∧
    (fsal_internal_init_global ex_constants 0 (some ex_fsal_info)
        (some ex_admin_force_unmerged) none ex_globals).2.global_fs_info.unique_handles ≠
      ex_admin_force_unmerged.values.unique_handles ∧
    ex_admin_force_unmerged.behaviors.acl_support = fsal_initflag_t.FSAL_INIT_FORCE_VALUE ∧
    (fsal_internal_init_global ex_constants 0 (some ex_fsal_info)
        (some ex_admin_force_unmerged) none ex_globals).2.global_fs_info.acl_support ≠
      ex_admin_force_unmerged.values.acl_support := by
  decide

/-- C8, amended. For every successful negotiation, each of the nine merged
fields (symlink_support, link_support, lock_support, cansettime, maxread,
maxwrite, umask, auth_exportpath_xdev, xattr_access_rights) whose tag is
FSAL_INIT_FORCE_VALUE equals the administrator-supplied value in the resulting
`global_fs_info`, whatever the default was (each macro returns the supplied
value under that tag for every current value); chown_restricted,
fh_expire_type, unique_handles and acl_support are never merged and keep the
value of `default_zfs_info` whatever their tag. -/
theorem init_global_force_value (K : fsal_constants) (sem_rc : Int)
    (fsal_info : Option fsal_init_info_t) (fs_common_info : fs_common_initinfo_t)
    (fs_specific_info : Option zfsfs_specific_initinfo_t) (g : fsal_globals)
    (h_ok : (fsal_internal_init_global K sem_rc fsal_info (some fs_common_info)
      fs_specific_info g).1.major = fsal_errors_t.ERR_FSAL_NO_ERROR) :
    (fs_common_info.behaviors.symlink_support = fsal_initflag_t.FSAL_INIT_FORCE_VALUE →
      (fsal_internal_init_global K sem_rc fsal_info (some fs_common_info)
        fs_specific_info g).2.global_fs_info.symlink_support =
        fs_common_info.values.symlink_support) ∧
    (fs_common_info.behaviors.link_support = fsal_initflag_t.FSAL_INIT_FORCE_VALUE →
      (fsal_internal_init_global K sem_rc fsal_info (some fs_common_info)
        fs_specific_info g).2.global_fs_info.link_support =
        fs_common_info.values.link_support) ∧
    (fs_common_info.behaviors.lock_support = fsal_initflag_t.FSAL_INIT_FORCE_VALUE →
      (fsal_internal_init_global K sem_rc fsal_info (some fs_common_info)
        fs_specific_info g).2.global_fs_info.lock_support =
        fs_common_info.values.lock_support) ∧
    (fs_common_info.behaviors.cansettime = fsal_initflag_t.FSAL_INIT_FORCE_VALUE →
      (fsal_internal_init_global K sem_rc fsal_info (some fs_common_info)
        fs_specific_info g).2.global_fs_info.cansettime =
        fs_common_info.values.cansettime) ∧
    (fs_common_info.behaviors.maxread = fsal_initflag_t.FSAL_INIT_FORCE_VALUE →
      (fsal_internal_init_global K sem_rc fsal_info (some fs_common_info)
        fs_specific_info g).2.global_fs_info.maxread =
        fs_common_info.values.maxread) ∧
    (fs_common_info.behaviors.maxwrite = fsal_initflag_t.FSAL_INIT_FORCE_VALUE →
      (fsal_internal_init_global K sem_rc fsal_info (some fs_common_info)
        fs_specific_info g).2.global_fs_info.maxwrite =
        fs_common_info.values.maxwrite) ∧
    (fs_common_info.behaviors.umask = fsal_initflag_t.FSAL_INIT_FORCE_VALUE →
      (fsal_internal_init_global K sem_rc fsal_info (some fs_common_info)
        fs_specific_info g).2.global_fs_info.umask =
        fs_common_info.values.umask) ∧
    (fs_common_info.behaviors.auth_exportpath_xdev = fsal_initflag_t.FSAL_INIT_FORCE_VALUE →
      (fsal_internal_init_global K sem_rc fsal_info (some fs_common_info)
        fs_specific_info g).2.global_fs_info.auth_exportpath_xdev =
        fs_common_info.values.auth_exportpath_xdev) ∧
    (fs_common_info.behaviors.xattr_access_rights = fsal_initflag_t.FSAL_INIT_FORCE_VALUE →
      (fsal_internal_init_global K sem_rc fsal_info (some fs_common_info)
        fs_specific_info g).2.global_fs_info.xattr_access_rights =
        fs_common_info.values.xattr_access_rights) ∧
    (fsal_internal_init_global K sem_rc fsal_info (some fs_common_info)
        fs_specific_info g).2.global_fs_info.chown_restricted =
      (default_zfs_info K).chown_restricted ∧
    (fsal_internal_init_global K sem_rc fsal_info (some fs_common_info)
        fs_specific_info g).2.global_fs_info.fh_expire_type =
      (default_zfs_info K).fh_expire_type ∧
    (fsal_internal_init_global K sem_rc fsal_info (some fs_common_info)
        fs_specific_info g).2.global_fs_info.unique_handles =
      (default_zfs_info K).unique_handles ∧
    (fsal_internal_init_global K sem_rc fsal_info (some fs_common_info)
        fs_specific_info g).2.global_fs_info.acl_support =
      (default_zfs_info K).acl_support ∧
    (∀ (c v : Bool), SET_BOOLEAN_PARAM c fsal_initflag_t.FSAL_INIT_FORCE_VALUE v = v) ∧
    (∀ (c v : Nat), SET_INTEGER_PARAM c fsal_initflag_t.FSAL_INIT_FORCE_VALUE v = v) ∧
    (∀ (c v : Nat), SET_BITMAP_PARAM c fsal_initflag_t.FSAL_INIT_FORCE_VALUE v = v) := by
  obtain ⟨p, hp, _, hg⟩ := fsal_internal_init_global_no_error K sem_rc fsal_info
    (some fs_common_info) fs_specific_info g h_ok
  have hp2 : fs_common_info = p := by simpa using hp
  subst hp2
  rw [hg]
  refine ⟨?_, ?_, ?_, ?_, ?_, ?_, ?_, ?_, ?_, rfl, rfl, rfl, rfl,
    fun _ _ => rfl, fun _ _ => rfl, fun _ _ => rfl⟩
  all_goals intro h
  all_goals simp [merge_fs_common_info, h, SET_BOOLEAN_PARAM, SET_INTEGER_PARAM,
    SET_BITMAP_PARAM]

/-- Witness of C8 amended: a successful negotiation that forces the nine merged
fields. -/
theorem init_global_force_value_witness :
    (fsal_internal_init_global ex_constants 0 (some ex_fsal_info)
        (some ex_admin_force_merged) none ex_globals).1.major = fsal_errors_t.ERR_FSAL_NO_ERROR ∧
    (fsal_internal_init_global ex_constants 0 (some ex_fsal_info)
        (some ex_admin_force_merged) none ex_globals).2.global_fs_info.maxread = 1024 ∧
    (fsal_internal_init_global ex_constants 0 (some ex_fsal_info)
        (some ex_admin_force_merged) none ex_globals).2.global_fs_info.lock_support = true := by
  have h := init_global_force_value ex_constants 0 (some ex_fsal_info) ex_admin_force_merged
    none ex_globals (by decide)
  exact ⟨by decide, h.2.2.2.2.1 (by decide), h.2.2.1 (by decide)⟩

/-- C9. For symlink_support, link_support, lock_support, cansettime and
auth_exportpath_xdev the merged field is `SET_BOOLEAN_PARAM` of the current
value, the tag and the supplied value; for every current value c and supplied
value v the merge under FSAL_INIT_MIN_LIMIT equals the merge under
FSAL_INIT_MAX_LIMIT, both are the logical AND of c and v, so a FALSE current
value stays FALSE under FSAL_INIT_MIN_LIMIT; the macro agrees with the boolean
merge of section 4.1 of the specification under every tag. -/
theorem set_boolean_param_min_is_and (c v : Bool) (cfg : fsal_staticfsinfo_t)
    (p_init_info : fs_common_initinfo_t) :
    (merge_fs_common_info cfg p_init_info).symlink_support =
      SET_BOOLEAN_PARAM cfg.symlink_support p_init_info.behaviors.symlink_support
        p_init_info.values.symlink_support ∧
    (merge_fs_common_info cfg p_init_info).link_support =
      SET_BOOLEAN_PARAM cfg.link_support p_init_info.behaviors.link_support
        p_init_info.values.link_support ∧
    (merge_fs_common_info cfg p_init_info).lock_support =
      SET_BOOLEAN_PARAM cfg.lock_support p_init_info.behaviors.lock_support
        p_init_info.values.lock_support ∧
    (merge_fs_common_info cfg p_init_info).cansettime =
      SET_BOOLEAN_PARAM cfg.cansettime p_init_info.behaviors.cansettime
        p_init_info.values.cansettime ∧
    (merge_fs_common_info cfg p_init_info).auth_exportpath_xdev =
      SET_BOOLEAN_PARAM cfg.auth_exportpath_xdev p_init_info.behaviors.auth_exportpath_xdev
        p_init_info.values.auth_exportpath_xdev ∧
    SET_BOOLEAN_PARAM c fsal_initflag_t.FSAL_INIT_MIN_LIMIT v =
      SET_BOOLEAN_PARAM c fsal_initflag_t.FSAL_INIT_MAX_LIMIT v ∧
    SET_BOOLEAN_PARAM c fsal_initflag_t.FSAL_INIT_MAX_LIMIT v = (c && v) ∧
    SET_BOOLEAN_PARAM c fsal_initflag_t.FSAL_INIT_MIN_LIMIT v = (c && v) ∧
    SET_BOOLEAN_PARAM false fsal_initflag_t.FSAL_INIT_MIN_LIMIT v = false ∧
    (∀ tag, SET_BOOLEAN_PARAM c tag v = spec_boolean_merge c tag v) := by
  refine ⟨rfl, rfl, rfl, rfl, rfl, rfl, rfl, rfl, rfl, ?_⟩
  intro tag
  cases tag <;> simp [SET_BOOLEAN_PARAM, spec_boolean_merge]

/-- C10. For umask and xattr_access_rights the merged field is
`SET_BITMAP_PARAM` of the current value, the tag and the supplied value; for
every current value c and supplied value v, FSAL_INIT_MAX_LIMIT gives the
bitwise AND of c and v, every bit of which is a bit of c and of v,
FSAL_INIT_MIN_LIMIT gives the bitwise OR, which has every bit of c and every
bit of v (and fits in 32 bits when c and v do), and FSAL_INIT_FS_DEFAULT gives
c unchanged. -/
theorem set_bitmap_param_and_or (c v : Nat) (cfg : fsal_staticfsinfo_t)
    (p_init_info : fs_common_initinfo_t) :
    (merge_fs_common_info cfg p_init_info).umask =
      SET_BITMAP_PARAM cfg.umask p_init_info.behaviors.umask p_init_info.values.umask ∧
    (merge_fs_common_info cfg p_init_info).xattr_access_rights =
      SET_BITMAP_PARAM cfg.xattr_access_rights p_init_info.behaviors.xattr_access_rights
        p_init_info.values.xattr_access_rights ∧
    SET_BITMAP_PARAM c fsal_initflag_t.FSAL_INIT_MAX_LIMIT v = c &&& v ∧
    (∀ i, (SET_BITMAP_PARAM c fsal_initflag_t.FSAL_INIT_MAX_LIMIT v).testBit i = true →
      c.testBit i = true ∧ v.testBit i = true) ∧
    SET_BITMAP_PARAM c fsal_initflag_t.FSAL_INIT_MIN_LIMIT v = c ||| v ∧
    (∀ i, c.testBit i = true ∨ v.testBit i = true →
      (SET_BITMAP_PARAM c fsal_initflag_t.FSAL_INIT_MIN_LIMIT v).testBit i = true) ∧
    (c < 2 ^ 32 → v < 2 ^ 32 →
      SET_BITMAP_PARAM c fsal_initflag_t.FSAL_INIT_MIN_LIMIT v < 2 ^ 32) ∧
    SET_BITMAP_PARAM c fsal_initflag_t.FSAL_INIT_FS_DEFAULT v = c := by
  refine ⟨rfl, rfl, rfl, ?_, rfl, ?_, ?_, rfl⟩
  · intro i h
    simpa [SET_BITMAP_PARAM, Nat.testBit_and] using h
  · intro i h
    simpa [SET_BITMAP_PARAM, Nat.testBit_or] using h
  · intro hc hv
    exact Nat.or_lt_two_pow hc hv

/-! ## Part 3 : facts about the counters -/

theorem counter_at_set_same (a : List Nat) (i v : Nat) (h : i < a.length) :
    counter_at (a.set i v) i = v := by
  simp [counter_at, List.getElem?_set, h]

theorem counter_at_set_ne (a : List Nat) (i j v : Nat) (h : j ≠ i) :
    counter_at (a.set i v) j = counter_at a j := by
  simp [counter_at, List.getElem?_set, Ne.symm h]

theorem counter_at_zero_statistics (E : fsal_stat_externs) (i : Nat) :
    counter_at (zero_statistics E).func_stats.nb_call i = 0 ∧
    counter_at (zero_statistics E).func_stats.nb_success i = 0 ∧
    counter_at (zero_statistics E).func_stats.nb_err_retryable i = 0 ∧
    counter_at (zero_statistics E).func_stats.nb_err_unrecover i = 0 := by
  have h : ∀ n : Nat, counter_at (List.replicate n 0) i = 0 := by
    intro n
    by_cases hi : i < n
    · simp [counter_at, List.getElem?_replicate, hi]
    · simp [counter_at, List.getElem?_replicate, hi]
  exact ⟨h _, h _, h _, h _⟩

theorem zero_statistics_well_formed (E : fsal_stat_externs) :
    stats_well_formed E (zero_statistics E) := by
  simp [stats_well_formed, zero_statistics]

theorem counter_increment_in_range (E : fsal_stat_externs) (a : List Nat) (index : Int)
    (h_lo : 0 ≤ index) (h_hi : index < (E.FSAL_NB_FUNC : Int)) :
    counter_increment E a index =
      Except.ok (a.set index.toNat ((counter_at a index.toNat + 1) % 2 ^ E.counter_bits)) := by
  have h : ¬ (index < 0 ∨ (E.FSAL_NB_FUNC : Int) ≤ index) := by omega
  simp [counter_increment, h]

theorem counter_increment_negative (E : fsal_stat_externs) (a : List Nat) (index : Int)
    (h : index < 0) :
    counter_increment E a index = Except.error mem_fault.index_out_of_range := by
  simp [counter_increment, h]

/-- The effect of lines 150-157 on a well-formed block for an index inside the
arrays. -/
theorem increment_the_values_in_range (E : fsal_stat_externs) (function_index : Int)
    (status : fsal_status_t) (b : fsal_statistics_t)
    (h_lo : 0 ≤ function_index) (h_hi : function_index < (E.FSAL_NB_FUNC : Int))
    (h_wf : stats_well_formed E b) :
    ∃ b', increment_the_values E function_index status b = Except.ok b' ∧
      stats_well_formed E b' ∧
      counter_at b'.func_stats.nb_call function_index.toNat =
        (counter_at b.func_stats.nb_call function_index.toNat + 1) % 2 ^ E.counter_bits ∧
      counter_at b'.func_stats.nb_success function_index.toNat =
        (if E.FSAL_IS_ERROR status = false then
          (counter_at b.func_stats.nb_success function_index.toNat + 1) % 2 ^ E.counter_bits
         else counter_at b.func_stats.nb_success function_index.toNat) ∧
      counter_at b'.func_stats.nb_err_retryable function_index.toNat =
        (if E.FSAL_IS_ERROR status = true ∧ E.fsal_is_retryable status = true then
          (counter_at b.func_stats.nb_err_retryable function_index.toNat + 1) %
            2 ^ E.counter_bits
         else counter_at b.func_stats.nb_err_retryable function_index.toNat) ∧
      counter_at b'.func_stats.nb_err_unrecover function_index.toNat =
        (if E.FSAL_IS_ERROR status = true ∧ E.fsal_is_retryable status = false then
          (counter_at b.func_stats.nb_err_unrecover function_index.toNat + 1) %
            2 ^ E.counter_bits
         else counter_at b.func_stats.nb_err_unrecover function_index.toNat) ∧
      ∀ j, j ≠ function_index.toNat →
        counter_at b'.func_stats.nb_call j = counter_at b.func_stats.nb_call j ∧
        counter_at b'.func_stats.nb_success j = counter_at b.func_stats.nb_success j ∧
        counter_at b'.func_stats.nb_err_retryable j =
          counter_at b.func_stats.nb_err_retryable j ∧
        counter_at b'.func_stats.nb_err_unrecover j =
          counter_at b.func_stats.nb_err_unrecover j := by
  obtain ⟨w1, w2, w3, w4⟩ := h_wf
  have hi : function_index.toNat < E.FSAL_NB_FUNC := by omega
  have hc := fun a => counter_increment_in_range E a function_index h_lo h_hi
  by_cases he : E.FSAL_IS_ERROR status = true
  · by_cases hr : E.fsal_is_retryable status = true
    · refine ⟨_, by simp [increment_the_values, hc, he, hr]; rfl, ?_, ?_, ?_, ?_, ?_, ?_⟩
      · simp [stats_well_formed, w1, w2, w3, w4]
      · simp [counter_at_set_same, w1, hi]
      · simp [he]
      · simp [he, hr, counter_at_set_same, w3, hi]
      · simp [he, hr]
      · intro j hj
        simp [counter_at_set_ne _ _ _ _ hj]
    · have hr' : E.fsal_is_retryable status = false := by simpa using hr
      refine ⟨_, by simp [increment_the_values, hc, he, hr']; rfl, ?_, ?_, ?_, ?_, ?_, ?_⟩
      · simp [stats_well_formed, w1, w2, w3, w4]
      · simp [counter_at_set_same, w1, hi]
      · simp [he]
      · simp [he, hr']
      · simp [he, hr', counter_at_set_same, w4, hi]
      · intro j hj
        simp [counter_at_set_ne _ _ _ _ hj]
  · have he' : E.FSAL_IS_ERROR status = false := by simpa using he
    refine ⟨_, by simp [increment_the_values, hc, he']; rfl, ?_, ?_, ?_, ?_, ?_, ?_⟩
    · simp [stats_well_formed, w1, w2, w3, w4]
    · simp [counter_at_set_same, w1, hi]
    · simp [he', counter_at_set_same, w2, hi]
    · simp [he']
    · simp [he']
    · intro j hj
      simp [counter_at_set_ne _ _ _ _ hj]

theorem counter_sum_step (M c s r u : Nat) (h : c = (s + r + u) % M) :
    (c + 1) % M = ((s + 1) % M + r + u) % M ∧
    (c + 1) % M = (s + (r + 1) % M + u) % M ∧
    (c + 1) % M = (s + r + (u + 1) % M) % M := by
  subst h
  have e0 : ((s + r + u) % M + 1) % M = (s + r + u + 1) % M := Nat.mod_add_mod _ _ _
  have e1 : ((s + 1) % M + r + u) % M = (s + r + u + 1) % M := by
    rw [Nat.add_assoc, Nat.mod_add_mod]
    congr 1
    omega
  have e2 : (s + (r + 1) % M + u) % M = (s + r + u + 1) % M := by
    rw [Nat.add_comm s, Nat.add_assoc, Nat.mod_add_mod]
    congr 1
    omega
  have e3 : (s + r + (u + 1) % M) % M = (s + r + u + 1) % M := by
    rw [Nat.add_mod_mod]
    congr 1
  rw [e0, e1, e2, e3]
  exact ⟨rfl, rfl, rfl⟩

/-- The property that the statistics keep: the arrays have their size and, for
every function, the calls are the sum of the three classes modulo the counter
width. -/
theorem increment_the_values_keeps_sum (E : fsal_stat_externs) (function_index : Int)
    (status : fsal_status_t) (b b' : fsal_statistics_t)
    (h_wf : stats_well_formed E b)
    (h_sum : ∀ i, i < E.FSAL_NB_FUNC →
      counter_at b.func_stats.nb_call i =
        (counter_at b.func_stats.nb_success i + counter_at b.func_stats.nb_err_retryable i +
          counter_at b.func_stats.nb_err_unrecover i) % 2 ^ E.counter_bits)
    (h_run : increment_the_values E function_index status b = Except.ok b') :
    stats_well_formed E b' ∧
    ∀ i, i < E.FSAL_NB_FUNC →
      counter_at b'.func_stats.nb_call i =
        (counter_at b'.func_stats.nb_success i + counter_at b'.func_stats.nb_err_retryable i +
          counter_at b'.func_stats.nb_err_unrecover i) % 2 ^ E.counter_bits := by
  by_cases h_neg : function_index < 0
  · simp [increment_the_values, counter_increment_negative E _ function_index h_neg] at h_run
  by_cases h_hi : function_index < (E.FSAL_NB_FUNC : Int)
  swap
  · have hbad : function_index < 0 ∨ (E.FSAL_NB_FUNC : Int) ≤ function_index := by omega
    simp [increment_the_values, counter_increment, hbad] at h_run
  obtain ⟨b2, hb2, hwf2, hcall, hsucc, hretry, hunrec, hother⟩ :=
    increment_the_values_in_range E function_index status b (by omega) h_hi h_wf
  rw [hb2] at h_run
  have hbb : b2 = b' := by simpa using h_run
  subst hbb
  refine ⟨hwf2, ?_⟩
  intro i hi
  by_cases hij : i = function_index.toNat
  · subst hij
    obtain ⟨s1, s2, s3⟩ := counter_sum_step (2 ^ E.counter_bits) _ _ _ _ (h_sum _ hi)
    rw [hcall, hsucc, hretry, hunrec]
    by_cases he : E.FSAL_IS_ERROR status = true
    · by_cases hr : E.fsal_is_retryable status = true
      · simp only [he, hr]
        simpa using s2
      · have hr' : E.fsal_is_retryable status = false := by simpa using hr
        simp only [he, hr']
        simpa using s3
    · have he' : E.FSAL_IS_ERROR status = false := by simpa using he
      simp only [he']
      simpa using s1
  · obtain ⟨o1, o2, o3, o4⟩ := hother i hij
    rw [o1, o2, o3, o4]
    exact h_sum i hi

/-- A call of `fsal_increment_nbcall` that returns, on a thread that has a
block, leaves the thread as it was or with the block that lines 150-157 make
of it. -/
theorem fsal_increment_nbcall_ok_cases (E : fsal_stat_externs) (once_rc : Int)
    (alloc_ok : Bool) (function_index : Int) (status : fsal_status_t)
    (t t' : fsal_thread_state) (b : fsal_statistics_t) (h_b : t.key_stats = some b)
    (h_run : fsal_increment_nbcall E once_rc alloc_ok function_index status t =
      Except.ok t') :
    t' = t ∨ ∃ b', increment_the_values E function_index status b = Except.ok b' ∧
      t' = { key_stats := some b' } := by
  unfold fsal_increment_nbcall at h_run
  by_cases h1 : function_index ≥ (E.FSAL_NB_FUNC : Int)
  · simp [h1] at h_run
    exact Or.inl h_run.symm
  by_cases h2 : once_rc ≠ 0
  · simp [h1, h2] at h_run
    exact Or.inl h_run.symm
  simp only [h1, h2, if_false, bythread_stat_get_or_create, h_b] at h_run
  cases hv : increment_the_values E function_index status b with
  | error e => simp [hv] at h_run
  | ok b' =>
    simp [hv] at h_run
    exact Or.inr ⟨b', rfl, h_run.symm⟩

/-- On a thread that has a block `fsal_internal_getstats` always returns,
leaves the thread as it was, and, when `pthread_once` succeeds and
`output_stats` is not NULL, stores a copy of the block there. -/
theorem fsal_internal_getstats_with_block (E : fsal_stat_externs) (once_rc : Int)
    (alloc_ok : Bool) (output_stats : Option fsal_statistics_t)
    (t : fsal_thread_state) (b : fsal_statistics_t) (h_b : t.key_stats = some b) :
    fsal_internal_getstats E once_rc alloc_ok output_stats t =
      Except.ok (t, if once_rc = 0 ∧ output_stats ≠ none then some b else output_stats) := by
  unfold fsal_internal_getstats
  by_cases h2 : once_rc = 0
  · cases output_stats with
    | none => simp [h2, bythread_stat_get_or_create, h_b]
    | some o => simp [h2, bythread_stat_get_or_create, h_b]
  · simp [h2]

/-! ## Part 3 : the claims on the statistics and the token functions -/

/-- C11, as stated, fails when a counter is at its maximum: function 0 of the
example thread has been called 2^32 - 1 times with success; one more
successful call leaves `nb_call[0]` and `nb_success[0]` at 0, not at the old
value plus 1. -/
theorem increment_nbcall_wraps_counterexample :
    ∃ b, fsal_increment_nbcall ex_stat_externs 0 true 0 ex_status_ok ex_thread_full =
        Except.ok { key_stats := some b } ∧
      counter_at b.func_stats.nb_call 0 = 0 ∧
      counter_at b.func_stats.nb_call 0 ≠
        counter_at ex_statistics_full.func_stats.nb_call 0 + 1 ∧
      counter_at b.func_stats.nb_success 0 ≠
        counter_at ex_statistics_full.func_stats.nb_success 0 + 1 :=
  ⟨_, rfl, by decide, by decide, by decide⟩

/-- C11, amended. When `pthread_once` succeeds and the thread has a block `b0`
(or has none, `Mem_Alloc` succeeds and `b0` is the all-zero block then
created), for every index i with 0 <= i < FSAL_NB_FUNC and every status the
call returns and leaves a block in which `nb_call[i]` is the old value plus 1
modulo the counter width (plus 1 exactly when that does not overflow), exactly
one of `nb_success[i]`, `nb_err_retryable[i]`, `nb_err_unrecover[i]` is the old
value plus 1 modulo the counter width and the two others are unchanged -
`nb_success` when the status is not an error, `nb_err_retryable` when it is an
error and retryable, `nb_err_unrecover` otherwise - and the four counters of
every other index are unchanged. -/
theorem increment_nbcall_counts (E : fsal_stat_externs) (alloc_ok : Bool)
    (function_index : Int) (status : fsal_status_t) (t : fsal_thread_state)
    (b0 : fsal_statistics_t)
    (h_lo : 0 ≤ function_index) (h_hi : function_index < (E.FSAL_NB_FUNC : Int))
    (h_block : (t.key_stats = some b0 ∧ stats_well_formed E b0) ∨
      (t.key_stats = none ∧ alloc_ok = true ∧ b0 = zero_statistics E)) :
    ∃ b, fsal_increment_nbcall E 0 alloc_ok function_index status t =
        Except.ok { key_stats := some b } ∧
      stats_well_formed E b ∧
      counter_at b.func_stats.nb_call function_index.toNat =
        (counter_at b0.func_stats.nb_call function_index.toNat + 1) % 2 ^ E.counter_bits ∧
      (counter_at b0.func_stats.nb_call function_index.toNat + 1 < 2 ^ E.counter_bits →
        counter_at b.func_stats.nb_call function_index.toNat =
          counter_at b0.func_stats.nb_call function_index.toNat + 1) ∧
      (E.FSAL_IS_ERROR status = false →
        counter_at b.func_stats.nb_success function_index.toNat =
          (counter_at b0.func_stats.nb_success function_index.toNat + 1) %
            2 ^ E.counter_bits ∧
        counter_at b.func_stats.nb_err_retryable function_index.toNat =
          counter_at b0.func_stats.nb_err_retryable function_index.toNat ∧
        counter_at b.func_stats.nb_err_unrecover function_index.toNat =
          counter_at b0.func_stats.nb_err_unrecover function_index.toNat) ∧
      (E.FSAL_IS_ERROR status = true → E.fsal_is_retryable status = true →
        counter_at b.func_stats.nb_err_retryable function_index.toNat =
          (counter_at b0.func_stats.nb_err_retryable function_index.toNat + 1) %
            2 ^ E.counter_bits ∧
        counter_at b.func_stats.nb_success function_index.toNat =
          counter_at b0.func_stats.nb_success function_index.toNat ∧
        counter_at b.func_stats.nb_err_unrecover function_index.toNat =
          counter_at b0.func_stats.nb_err_unrecover function_index.toNat) ∧
      (E.FSAL_IS_ERROR status = true → E.fsal_is_retryable status = false →
        counter_at b.func_stats.nb_err_unrecover function_index.toNat =
          (counter_at b0.func_stats.nb_err_unrecover function_index.toNat + 1) %
            2 ^ E.counter_bits ∧
        counter_at b.func_stats.nb_success function_index.toNat =
          counter_at b0.func_stats.nb_success function_index.toNat ∧
        counter_at b.func_stats.nb_err_retryable function_index.toNat =
          counter_at b0.func_stats.nb_err_retryable function_index.toNat) ∧
      (∀ j, j ≠ function_index.toNat →
        counter_at b.func_stats.nb_call j = counter_at b0.func_stats.nb_call j ∧
        counter_at b.func_stats.nb_success j = counter_at b0.func_stats.nb_success j ∧
        counter_at b.func_stats.nb_err_retryable j =
          counter_at b0.func_stats.nb_err_retryable j ∧
        counter_at b.func_stats.nb_err_unrecover j =
          counter_at b0.func_stats.nb_err_unrecover j) ∧
      (t.key_stats = none → ∀ j,
        counter_at b0.func_stats.nb_call j = 0 ∧
        counter_at b0.func_stats.nb_success j = 0 ∧
        counter_at b0.func_stats.nb_err_retryable j = 0 ∧
        counter_at b0.func_stats.nb_err_unrecover j = 0) := by
  have h_wf0 : stats_well_formed E b0 := by
    rcases h_block with ⟨_, h⟩ | ⟨_, _, h⟩
    · exact h
    · rw [h]; exact zero_statistics_well_formed E
  obtain ⟨b, hb, hwf, hcall, hsucc, hretry, hunrec, hother⟩ :=
    increment_the_values_in_range E function_index status b0 h_lo h_hi h_wf0
  have h1 : ¬ function_index ≥ (E.FSAL_NB_FUNC : Int) := by omega
  have hrun : fsal_increment_nbcall E 0 alloc_ok function_index status t =
      Except.ok { key_stats := some b } := by
    rcases h_block with ⟨hk, _⟩ | ⟨hk, ha, hz⟩
    · simp [fsal_increment_nbcall, h1, bythread_stat_get_or_create, hk, hb]
    · subst hz
      simp [fsal_increment_nbcall, h1, bythread_stat_get_or_create, hk, ha, hb]
  refine ⟨b, hrun, hwf, hcall, ?_, ?_, ?_, ?_, hother, ?_⟩
  · intro hlt
    rw [hcall, Nat.mod_eq_of_lt hlt]
  · intro he
    simp only [he] at hsucc hretry hunrec
    exact ⟨by simpa using hsucc, by simpa using hretry, by simpa using hunrec⟩
  · intro he hr
    simp only [he, hr] at hsucc hretry hunrec
    exact ⟨by simpa using hretry, by simpa using hsucc, by simpa using hunrec⟩
  · intro he hr
    simp only [he, hr] at hsucc hretry hunrec
    exact ⟨by simpa using hunrec, by simpa using hsucc, by simpa using hretry⟩
  · intro hnone j
    rcases h_block with ⟨hk, _⟩ | ⟨_, _, hz⟩
    · rw [hk] at hnone; cases hnone
    · rw [hz]; exact counter_at_zero_statistics E j

/-- Witness of C11 amended: the first call of a new thread, function 1, with a
retryable failure. -/
theorem increment_nbcall_counts_witness :
    ∃ b, fsal_increment_nbcall ex_stat_externs 0 true 1 ex_status_delay ex_thread_new =
        Except.ok { key_stats := some b } ∧
      counter_at b.func_stats.nb_call 1 = 1 ∧
      counter_at b.func_stats.nb_err_retryable 1 = 1 ∧
      counter_at b.func_stats.nb_success 1 = 0 ∧
      counter_at b.func_stats.nb_call 0 = 0 := by
  obtain ⟨b, h1, _⟩ :=
    increment_nbcall_counts ex_stat_externs true 1 ex_status_delay ex_thread_new
      (zero_statistics ex_stat_externs) (by decide) (by decide)
      (Or.inr ⟨by decide, rfl, rfl⟩)
  have h2 : fsal_increment_nbcall ex_stat_externs 0 true 1 ex_status_delay ex_thread_new =
      Except.ok { key_stats := some { func_stats :=
        { nb_call := [0, 1], nb_success := [0, 0]
          nb_err_retryable := [0, 1], nb_err_unrecover := [0, 0] } } } := rfl
  rw [h2] at h1
  simp only [Except.ok.injEq, fsal_thread_state.mk.injEq, Option.some.injEq] at h1
  subst h1
  exact ⟨_, h2, by decide, by decide, by decide, by decide⟩

/-- C12. Starting from `limit_calls = FALSE`, after `fsal_internal_init_global`
with non-null arguments the limit is on exactly when `max_fs_calls` is
positive. With `max_fs_calls = 0` both `TakeTokenFSCall` and
`ReleaseTokenFSCall` make no semaphore operation and leave the variables as
they are. After a successful start-up with `max_fs_calls = N > 0` the
semaphore holds N tokens, `TakeTokenFSCall` makes exactly one `semaphore_P`
(and returns with N - 1 tokens left) and `ReleaseTokenFSCall` exactly one
`semaphore_V`. -/
theorem token_calls_follow_max_fs_calls (K : fsal_constants) (sem_rc : Int)
    (fsal_info : fsal_init_info_t) (fs_common_info : fs_common_initinfo_t)
    (fs_specific_info : Option zfsfs_specific_initinfo_t) (g : fsal_globals)
    (h_init : g.limit_calls = false) :
    ((fsal_internal_init_global K sem_rc (some fsal_info) (some fs_common_info)
        fs_specific_info g).2.limit_calls = true ↔ fsal_info.max_fs_calls > 0) ∧
    (fsal_info.max_fs_calls = 0 →
      TakeTokenFSCall (fsal_internal_init_global K sem_rc (some fsal_info)
          (some fs_common_info) fs_specific_info g).2 =
        { globals := (fsal_internal_init_global K sem_rc (some fsal_info)
            (some fs_common_info) fs_specific_info g).2
          sem_ops := [], returned := true } ∧
      ReleaseTokenFSCall (fsal_internal_init_global K sem_rc (some fsal_info)
          (some fs_common_info) fs_specific_info g).2 =
        { globals := (fsal_internal_init_global K sem_rc (some fsal_info)
            (some fs_common_info) fs_specific_info g).2
          sem_ops := [], returned := true } ∧
      (fsal_internal_init_global K sem_rc (some fsal_info) (some fs_common_info)
        fs_specific_info g).2.sem_fs_calls = g.sem_fs_calls) ∧
    (fsal_info.max_fs_calls > 0 →
      (fsal_internal_init_global K sem_rc (some fsal_info) (some fs_common_info)
        fs_specific_info g).1.major = fsal_errors_t.ERR_FSAL_NO_ERROR →
      (fsal_internal_init_global K sem_rc (some fsal_info) (some fs_common_info)
        fs_specific_info g).2.sem_fs_calls.count = fsal_info.max_fs_calls ∧
      TakeTokenFSCall (fsal_internal_init_global K sem_rc (some fsal_info)
          (some fs_common_info) fs_specific_info g).2 =
        { globals := { (fsal_internal_init_global K sem_rc (some fsal_info)
              (some fs_common_info) fs_specific_info g).2 with
            sem_fs_calls := { count := fsal_info.max_fs_calls - 1 } }
          sem_ops := [semaphore_op.semaphore_P], returned := true } ∧
      ReleaseTokenFSCall (fsal_internal_init_global K sem_rc (some fsal_info)
          (some fs_common_info) fs_specific_info g).2 =
        { globals := { (fsal_internal_init_global K sem_rc (some fsal_info)
              (some fs_common_info) fs_specific_info g).2 with
            sem_fs_calls := { count := fsal_info.max_fs_calls + 1 } }
          sem_ops := [semaphore_op.semaphore_V], returned := true }) := by
  by_cases hN : fsal_info.max_fs_calls > 0
  · have hN0 : fsal_info.max_fs_calls ≠ 0 := by omega
    by_cases hrc : sem_rc = 0
    · by_cases hu : unsettable_overridden fs_common_info.behaviors = true
      · simp [fsal_internal_init_global, hN, hN0, hrc, hu]
      · simp [fsal_internal_init_global, hN, hN0, hrc, hu, semaphore_init, TakeTokenFSCall,
          ReleaseTokenFSCall, semaphore_P, semaphore_V]
    · simp [fsal_internal_init_global, hN, hN0, hrc]
  · have hN0 : fsal_info.max_fs_calls = 0 := by omega
    by_cases hu : unsettable_overridden fs_common_info.behaviors = true
    · simp [fsal_internal_init_global, hN0, hu, h_init, TakeTokenFSCall, ReleaseTokenFSCall]
    · simp [fsal_internal_init_global, hN0, hu, h_init, TakeTokenFSCall, ReleaseTokenFSCall]

/-- Witness of C12: the example start-up without limit and with a limit of 3. -/
theorem token_calls_follow_max_fs_calls_witness :
    (TakeTokenFSCall (fsal_internal_init_global ex_constants 0 (some ex_fsal_info)
        (some ex_admin_default) none ex_globals).2).sem_ops = [] ∧
    (fsal_internal_init_global ex_constants 0 (some ex_fsal_info_limited)
        (some ex_admin_default) none ex_globals).2.sem_fs_calls.count = 3 ∧
    (TakeTokenFSCall (fsal_internal_init_global ex_constants 0 (some ex_fsal_info_limited)
        (some ex_admin_default) none ex_globals).2).sem_ops = [semaphore_op.semaphore_P] := by
  have h0 := token_calls_follow_max_fs_calls ex_constants 0 ex_fsal_info ex_admin_default
    none ex_globals (by decide)
  have h3 := token_calls_follow_max_fs_calls ex_constants 0 ex_fsal_info_limited
    ex_admin_default none ex_globals (by decide)
  obtain ⟨t0, _, _⟩ := h0.2.1 (by decide)
  obtain ⟨c3, t3, _⟩ := h3.2.2 (by decide) (by decide)
  exact ⟨by rw [t0], c3, by rw [t3]⟩

/-- C13, the code at the failing inputs. An index at or above FSAL_NB_FUNC is
stopped by the test of line 103 and the thread is left as it was; a negative
index passes that test, and as soon as `pthread_once` succeeds and the thread
has or gets a block, `nb_call[function_index]++` is an access outside the
array. -/
theorem increment_nbcall_negative_index (E : fsal_stat_externs) (once_rc : Int)
    (alloc_ok : Bool) (function_index : Int) (status : fsal_status_t)
    (t : fsal_thread_state) :
    ((E.FSAL_NB_FUNC : Int) ≤ function_index →
      fsal_increment_nbcall E once_rc alloc_ok function_index status t = Except.ok t) ∧
    (function_index < 0 → once_rc = 0 → (t.key_stats ≠ none ∨ alloc_ok = true) →
      fsal_increment_nbcall E once_rc alloc_ok function_index status t =
        Except.error mem_fault.index_out_of_range) := by
  constructor
  · intro h
    simp [fsal_increment_nbcall, h]
  · intro hneg hrc hblock
    have h1 : ¬ function_index ≥ (E.FSAL_NB_FUNC : Int) := by omega
    have hv : ∀ b, increment_the_values E function_index status b =
        Except.error mem_fault.index_out_of_range := by
      intro b
      simp [increment_the_values, counter_increment_negative E _ function_index hneg]
    cases hk : t.key_stats with
    | some b => simp [fsal_increment_nbcall, h1, hrc, bythread_stat_get_or_create, hk, hv]
    | none =>
      have ha : alloc_ok = true := by
        rcases hblock with h | h
        · exact absurd hk h
        · exact h
      simp [fsal_increment_nbcall, h1, hrc, bythread_stat_get_or_create, hk, ha, hv]

/-- C13 at index -1 on a new thread: the call is an access outside the arrays. -/
theorem increment_nbcall_negative_index_witness :
    fsal_increment_nbcall ex_stat_externs 0 true (-1) ex_status_ok ex_thread_new =
      Except.error mem_fault.index_out_of_range :=
  (increment_nbcall_negative_index ex_stat_externs 0 true (-1) ex_status_ok
    ex_thread_new).2 (by decide) rfl (Or.inr rfl)

/-- On a thread that has a well-formed block, every call of
`fsal_increment_nbcall` with a non-negative index returns. -/
theorem fsal_increment_nbcall_nonneg_returns (E : fsal_stat_externs) (once_rc : Int)
    (alloc_ok : Bool) (function_index : Int) (status : fsal_status_t)
    (t : fsal_thread_state) (b : fsal_statistics_t) (h_b : t.key_stats = some b)
    (h_wf : stats_well_formed E b) (h_lo : 0 ≤ function_index) :
    ∃ t', fsal_increment_nbcall E once_rc alloc_ok function_index status t = Except.ok t' := by
  by_cases h1 : function_index ≥ (E.FSAL_NB_FUNC : Int)
  · exact ⟨t, by simp [fsal_increment_nbcall, h1]⟩
  by_cases h2 : once_rc ≠ 0
  · exact ⟨t, by simp [fsal_increment_nbcall, h1, h2]⟩
  obtain ⟨b', hb', _⟩ :=
    increment_the_values_in_range E function_index status b h_lo (by omega) h_wf
  exact ⟨{ key_stats := some b' },
    by simp [fsal_increment_nbcall, h1, h2, bythread_stat_get_or_create, h_b, hb']⟩

/-- Along the calls that stay inside the arrays the thread keeps a block whose
arrays have their size and in which the calls of every function are the sum
of its three classes modulo the counter width. -/
theorem stats_sum_kept_by_nonneg_calls (E : fsal_stat_externs) (t : fsal_thread_state)
    (h : stats_reachable_nonneg E t) :
    ∃ b, t.key_stats = some b ∧ stats_well_formed E b ∧
      (∀ i, i < E.FSAL_NB_FUNC →
        counter_at b.func_stats.nb_call i =
          (counter_at b.func_stats.nb_success i + counter_at b.func_stats.nb_err_retryable i +
            counter_at b.func_stats.nb_err_unrecover i) % 2 ^ E.counter_bits) := by
  induction h with
  | created =>
    refine ⟨zero_statistics E, rfl, zero_statistics_well_formed E, ?_⟩
    intro i _
    obtain ⟨z1, z2, z3, z4⟩ := counter_at_zero_statistics E i
    rw [z1, z2, z3, z4]
    simp
  | increment t t' once_rc alloc_ok function_index status _ _ hrun ih =>
    obtain ⟨b, hb, hwf, hsum⟩ := ih
    rcases fsal_increment_nbcall_ok_cases E once_rc alloc_ok function_index status t t' b
      hb hrun with hsame | ⟨b', hb', ht'⟩
    · rw [hsame]; exact ⟨b, hb, hwf, hsum⟩
    · obtain ⟨hwf', hsum'⟩ :=
        increment_the_values_keeps_sum E function_index status b b' hwf hsum hb'
      exact ⟨b', by rw [ht'], hwf', hsum'⟩
  | getstats t t' once_rc alloc_ok output_stats output_after _ hrun ih =>
    obtain ⟨b, hb, hwf, hsum⟩ := ih
    rw [fsal_internal_getstats_with_block E once_rc alloc_ok output_stats t b hb] at hrun
    have ht : t = t' := by
      simp only [Except.ok.injEq, Prod.mk.injEq] at hrun
      exact hrun.1
    rw [← ht]; exact ⟨b, hb, hwf, hsum⟩

/-- C14, the code at the failing inputs. In every state reached from the
all-zero block by calls of `fsal_internal_getstats` and by calls of
`fsal_increment_nbcall` with a non-negative index, every such call returns,
`nb_call[i]` is `nb_success[i] + nb_err_retryable[i] + nb_err_unrecover[i]`
modulo the counter width for every i below FSAL_NB_FUNC, and
`fsal_internal_getstats` returns, leaves the thread as it was and (with
`pthread_once` successful and a non-NULL `output_stats`) stores a copy of the
block. But the sequences of the claim also hold calls with a negative index:
from every such state, a call of `fsal_increment_nbcall` with a negative index
and a successful `pthread_once` is not stopped by the test of line 103 and
executes `nb_call[function_index]++` outside the array: the call is an
out-of-range write, after which the code guarantees nothing about the
counters. -/
theorem stats_sum_not_kept_for_negative_index (E : fsal_stat_externs)
    (t : fsal_thread_state) (h : stats_reachable_nonneg E t) :
    (∃ b, t.key_stats = some b ∧ stats_well_formed E b ∧
      (∀ i, i < E.FSAL_NB_FUNC →
        counter_at b.func_stats.nb_call i =
          (counter_at b.func_stats.nb_success i + counter_at b.func_stats.nb_err_retryable i +
            counter_at b.func_stats.nb_err_unrecover i) % 2 ^ E.counter_bits) ∧
      (∀ (alloc_ok : Bool) (output : fsal_statistics_t),
        fsal_internal_getstats E 0 alloc_ok (some output) t = Except.ok (t, some b)) ∧
      (∀ (once_rc : Int) (alloc_ok : Bool) (output_stats : Option fsal_statistics_t),
        ∃ output_after, fsal_internal_getstats E once_rc alloc_ok output_stats t =
          Except.ok (t, output_after))) ∧
    (∀ (once_rc : Int) (alloc_ok : Bool) (function_index : Int) (status : fsal_status_t),
      0 ≤ function_index →
      ∃ t', fsal_increment_nbcall E once_rc alloc_ok function_index status t =
        Except.ok t') ∧
    (∀ (alloc_ok : Bool) (function_index : Int) (status : fsal_status_t),
      function_index < 0 →
      fsal_increment_nbcall E 0 alloc_ok function_index status t =
        Except.error mem_fault.index_out_of_range) := by
  obtain ⟨b, hb, hwf, hsum⟩ := stats_sum_kept_by_nonneg_calls E t h
  refine ⟨⟨b, hb, hwf, hsum, ?_, ?_⟩, ?_, ?_⟩
  · intro alloc_ok output
    rw [fsal_internal_getstats_with_block E 0 alloc_ok (some output) t b hb]
    simp
  · intro once_rc alloc_ok output_stats
    exact ⟨_, fsal_internal_getstats_with_block E once_rc alloc_ok output_stats t b hb⟩
  · intro once_rc alloc_ok function_index status h_lo
    exact fsal_increment_nbcall_nonneg_returns E once_rc alloc_ok function_index status t b
      hb hwf h_lo
  · intro alloc_ok function_index status hneg
    have h1 : ¬ function_index ≥ (E.FSAL_NB_FUNC : Int) := by omega
    simp [fsal_increment_nbcall, h1, bythread_stat_get_or_create, hb, increment_the_values,
      counter_increment_negative E _ function_index hneg]

/-- C14 on a concrete run: from the all-zero block, a failed call of function 1
returns a state in which the calls of function 1 are the sum of its classes;
`fsal_internal_getstats` copies that block; and the next call, with index -1,
is the access outside the arrays. -/
theorem stats_sum_not_kept_for_negative_index_witness :
    ∃ t b, fsal_increment_nbcall ex_stat_externs 0 true 1 ex_status_delay
        { key_stats := some (zero_statistics ex_stat_externs) } = Except.ok t ∧
      t.key_stats = some b ∧
      counter_at b.func_stats.nb_call 1 =
        (counter_at b.func_stats.nb_success 1 + counter_at b.func_stats.nb_err_retryable 1 +
          counter_at b.func_stats.nb_err_unrecover 1) % 2 ^ ex_stat_externs.counter_bits ∧
      fsal_internal_getstats ex_stat_externs 0 true (some (zero_statistics ex_stat_externs)) t =
        Except.ok (t, some b) ∧
      fsal_increment_nbcall ex_stat_externs 0 true (-1) ex_status_ok t =
        Except.error mem_fault.index_out_of_range := by
  have hrun : fsal_increment_nbcall ex_stat_externs 0 true 1 ex_status_delay
      { key_stats := some (zero_statistics ex_stat_externs) } =
      Except.ok { key_stats := some { func_stats :=
        { nb_call := [0, 1], nb_success := [0, 0]
          nb_err_retryable := [0, 1], nb_err_unrecover := [0, 0] } } } := rfl
  have hr : stats_reachable_nonneg ex_stat_externs
      { key_stats := some { func_stats :=
          { nb_call := [0, 1], nb_success := [0, 0]
            nb_err_retryable := [0, 1], nb_err_unrecover := [0, 0] } } } :=
    stats_reachable_nonneg.increment _ _ 0 true 1 ex_status_delay
      stats_reachable_nonneg.created (by decide) hrun
  obtain ⟨⟨b, hb, _, hsum, hget, _⟩, _, hneg⟩ :=
    stats_sum_not_kept_for_negative_index ex_stat_externs _ hr
  exact ⟨_, b, hrun, hb, hsum 1 (by decide), hget true _,
    hneg true (-1) ex_status_ok (by decide)⟩

end Ganesha
